import Mathlib

/-!
# Store backend: authentication middleware, user routes and product routes

A shallow embedding of `middleware/auth.js`, `routes/api/users.js`,
`routes/api/products.js` and the two Mongoose schemas `models/Product.js` and
`models/Category.js`.

Conventions of the embedding.

* A JavaScript value that may be `undefined` is an `Option`; `none` is `undefined`.
  A field of the body of a product request is a `Field`: `undefined`, `null` or a
  value of the type of its schema path.
* A collection of the document database is a list of documents in insertion order;
  `findOne` returns the first match.
* A handler is a function from the request and the store to the new store and the
  response it writes.  An exception thrown inside a `try` block is the `catch` branch.
* Third-party libraries (`jsonwebtoken`, `bcryptjs`, the ObjectId parser of the
  driver) are parameters of the handlers.
* A JavaScript `Number` is an IEEE-754 double: `NaN`, an infinity, or a finite value
  with sign, integer mantissa and binary exponent; every arithmetic operation rounds
  its exact result to the nearest double, ties to even.
-/

namespace StoreBackend

/-! ## Strings -/

/-- The `String.prototype.replace(pat, rep)` of JavaScript with a string pattern, on
character lists: only the first occurrence of `pat` is replaced. -/
def replaceFirstChars (pat rep : List Char) : List Char → List Char
  | [] => if pat = [] then rep else []
  | c :: cs =>
    if pat.isPrefixOf (c :: cs) then rep ++ (c :: cs).drop pat.length
    else c :: replaceFirstChars pat rep cs

/-- The call `s.replace(pat, rep)` with a string pattern. -/
def jsReplace (s pat rep : String) : String :=
  ⟨replaceFirstChars pat.data rep.data s.data⟩

/-! ## JSON response bodies -/

/-- A JSON value as written by `res.json` (and a string as written by `res.send`). -/
inductive Json where
  | null : Json
  | str (s : String) : Json
  | num (q : ℚ) : Json
  | arr (items : List Json) : Json
  | obj (fields : List (String × Json)) : Json

mutual
/-- Does the key `k` name a field anywhere inside the JSON value? -/
def Json.hasKey (k : String) : Json → Bool
  | .null => false
  | .str _ => false
  | .num _ => false
  | .arr items => Json.hasKeyItems k items
  | .obj fields => Json.hasKeyFields k fields
/-- Key search in the items of an array. -/
def Json.hasKeyItems (k : String) : List Json → Bool
  | [] => false
  | j :: js => Json.hasKey k j || Json.hasKeyItems k js
/-- Key search in the fields of an object. -/
def Json.hasKeyFields (k : String) : List (String × Json) → Bool
  | [] => false
  | (name, j) :: fs => name == k || Json.hasKey k j || Json.hasKeyFields k fs
end

/-- An HTTP response: status code and body. -/
structure Response where
  status : Nat
  body : Json

/-! ## Libraries and configuration -/

/-- The payload of a token: `{ id, role? }`.  Every token the application signs
carries an `id`. -/
structure Payload where
  id : String
  role : Option String
deriving DecidableEq

/-- The two calls of `jsonwebtoken` the code makes: `sign payload secret expiresIn`
and `verify token secret`; `none` is a thrown exception. -/
structure Jwt where
  sign : Payload → String → String → Option String
  verify : String → String → Option Payload

/-- The process configuration read with `config.get`; `none` is a property that is
not defined, for which `config.get` throws. -/
structure Config where
  jwtSecret : Option String
  tokenExpire : Option String

/-- Modelled from the spec: `models/User.js` is not part of the sources.  What the
handlers need of the schema declaration is the default of `role`; the `email` path is
unique (data model of the spec: `email (unique)`, enforced at write time), which the
store enforces in `insertUser` and in `updateHandler`. -/
structure UserSchema where
  defaultRole : String

/-- Everything a handler reads besides the request and the store: the libraries, the
configuration and the user schema.  `hash` is `bcrypt.hash(·, 10)` (the salt is the
choice of the library), `compare` is `bcrypt.compare`, `objectId` is the ObjectId
parser of the driver: `none` for a string that is not a well-formed identifier,
otherwise the identifier in its canonical string form. -/
structure Env where
  jwt : Jwt
  hash : String → String
  compare : String → String → Bool
  objectId : String → Option String
  config : Config
  userSchema : UserSchema

/-! ## `middleware/auth.js` -/

/-- What the middleware does with a request: it writes a response and returns, or it
sets `req.user` and calls `next()`. -/
inductive AuthOutcome where
  | respond (r : Response) : AuthOutcome
  | next (user : String) : AuthOutcome

/-- The response the middleware wrote itself. -/
def AuthOutcome.response : AuthOutcome → Option Response
  | .respond r => some r
  | .next _ => none

/-- How many times the middleware called `next`. -/
def AuthOutcome.nextCalls : AuthOutcome → Nat
  | .respond _ => 0
  | .next _ => 1

/-- The value of `req.user` after the middleware. -/
def AuthOutcome.user : AuthOutcome → Option String
  | .respond _ => none
  | .next u => some u

/-- The token of a request: `req.header("Authorization")?.replace('Bearer ', '')`. -/
def extractToken (authorization : Option String) : Option String :=
  authorization.map (fun h => jsReplace h "Bearer " "")

/-- The call `jwt.verify(token, config.get("jwtSecret"))` inside the `try` block. -/
def verifyToken (jwt : Jwt) (config : Config) (token : String) : Option Payload :=
  config.jwtSecret.bind (jwt.verify token)

/-- The middleware `auth(req, res, next)`. -/
def auth (jwt : Jwt) (config : Config) (authorization : Option String) : AuthOutcome :=
  match extractToken authorization with
  | none => .respond ⟨401, .obj [("msg", .str "Access denied, please login")]⟩
  | some token =>
    if token = "" then .respond ⟨401, .obj [("msg", .str "Access denied, please login")]⟩
    else
      match verifyToken jwt config token with
      | some decoded => .next decoded.id
      | none => .respond ⟨400, .obj [("msg", .str "Token not valid, please login again")]⟩

/-! ## The credential store and `routes/api/users.js` -/

/-- Modelled from the spec: `models/User.js` is not part of the sources.  A user
record with the fields the handlers read and write. -/
structure User where
  _id : String
  username : String
  email : String
  password : String
  role : String
  profilePicture : Option String
deriving DecidableEq

/-- The fields of a user document as serialised by `res.json`. -/
def userFields (u : User) : List (String × Json) :=
  [("_id", .str u._id), ("username", .str u.username), ("email", .str u.email),
   ("password", .str u.password), ("role", .str u.role)] ++
  (match u.profilePicture with
   | some p => [("profilePicture", .str p)]
   | none => [])

/-- The projection `'-password'` (of `.select` and of the option `fields`) followed
by serialisation. -/
def userWithoutPassword (u : User) : Json :=
  .obj ((userFields u).filter (fun f => f.1 != "password"))

/-- The query `User.findOne({ email })`. -/
def findUserByEmail (users : List User) (email : String) : Option User :=
  users.find? (fun u => u.email == email)

/-- Lookup of a user by its parsed identifier. -/
def findUserById (users : List User) (oid : String) : Option User :=
  users.find? (fun u => u._id == oid)

/-- Modelled from the spec: `models/User.js` is not part of the sources.  Insertion
of a new user document: the store rejects a duplicate `_id` and, by the unique index
on `email`, a duplicate email. -/
def insertUser (users : List User) (u : User) : Option (List User) :=
  if users.any (fun v => v._id == u._id) then none
  else if users.any (fun v => v.email == u.email) then none
  else some (users ++ [u])

/-- Applies `f` to the first element that satisfies `p`: `findOne`, a change of the
document found, `save`. -/
def updateFirst {α : Type} (p : α → Bool) (f : α → α) : List α → List α
  | [] => []
  | x :: xs => if p x then f x :: xs else x :: updateFirst p f xs

/-- Replacement of the stored document that has the identifier of `u`. -/
def replaceUser (users : List User) (u : User) : List User :=
  updateFirst (fun v => v._id == u._id) (fun _ => u) users

/-- The body `{ error: msg }`. -/
def errorBody (msg : String) : Json := .obj [("error", .str msg)]

/-- The body `{ msg: msg }`. -/
def msgBody (msg : String) : Json := .obj [("msg", .str msg)]

/-- The expiry option `config.get('tokenExpire') || '1h'`; `none` when `config.get`
throws. -/
def tokenExpiry (config : Config) : Option String :=
  config.tokenExpire.map (fun e => if e = "" then "1h" else e)

/-- The call `jwt.sign(payload, config.get('jwtSecret'), { expiresIn: ... })`; `none`
when one of the calls throws. -/
def signToken (env : Env) (payload : Payload) : Option String :=
  match env.config.jwtSecret, tokenExpiry env.config with
  | some secret, some expiresIn => env.jwt.sign payload secret expiresIn
  | _, _ => none

/-- The body of `POST /register`. -/
structure RegisterBody where
  username : Option String
  email : Option String
  password : Option String

/-- The handler of `POST /register`; `newId` is the identifier the driver gives the
new document. -/
def register (env : Env) (newId : String) (body : RegisterBody) (users : List User) :
    List User × Response :=
  match body.username, body.email, body.password with
  | some username, some email, some password =>
    if username = "" ∨ email = "" ∨ password = "" then
      (users, ⟨400, errorBody "Please enter all fields"⟩)
    else
      match findUserByEmail users email with
      | some _ => (users, ⟨400, errorBody "User already exists"⟩)
      | none =>
        let newUser : User :=
          { _id := newId, username := username, email := email,
            password := env.hash password, role := env.userSchema.defaultRole,
            profilePicture := none }
        match insertUser users newUser with
        | none => (users, ⟨500, errorBody "Internal server error"⟩)
        | some users' =>
          match signToken env { id := newUser._id, role := none } with
          | none => (users', ⟨500, errorBody "Internal server error"⟩)
          | some token =>
            (users', ⟨201, .obj [("token", .str token),
              ("user", .obj [("id", .str newUser._id), ("username", .str newUser.username),
                ("email", .str newUser.email)])]⟩)
  | _, _, _ => (users, ⟨400, errorBody "Please enter all fields"⟩)

/-- The body of `POST /login-user`. -/
structure LoginBody where
  email : Option String
  password : Option String

/-- The handler of `POST /login-user`. -/
def login (env : Env) (body : LoginBody) (users : List User) : List User × Response :=
  match body.email, body.password with
  | some email, some password =>
    if email = "" ∨ password = "" then
      (users, ⟨400, errorBody "Please provide email and password"⟩)
    else
      match findUserByEmail users email with
      | none => (users, ⟨401, errorBody "User not found"⟩)
      | some user =>
        if env.compare password user.password then
          match signToken env { id := user._id, role := some user.role } with
          | none => (users, ⟨500, errorBody "Internal server error"⟩)
          | some token =>
            (users, ⟨200, .obj [("token", .str token), ("username", .str user.username),
              ("role", .str user.role)]⟩)
        else (users, ⟨401, errorBody "Incorrect password"⟩)
  | _, _ => (users, ⟨400, errorBody "Please provide email and password"⟩)

/-- A route behind the middleware: `router.verb(path, auth, handler)`. -/
def protect (env : Env) (authorization : Option String)
    (handler : String → List User → List User × Response) (users : List User) :
    List User × Response :=
  match auth env.jwt env.config authorization with
  | .respond r => (users, r)
  | .next user => handler user users

/-- The handler of `GET /profile`, with `req.user = user`. -/
def profileHandler (env : Env) (user : String) (users : List User) : List User × Response :=
  match env.objectId user with
  | none => (users, ⟨500, msgBody "Internal server error"⟩)
  | some oid =>
    match findUserById users oid with
    | none => (users, ⟨404, msgBody "User not found"⟩)
    | some u => (users, ⟨200, .obj [("user", userWithoutPassword u)]⟩)

/-- The body of `PUT /update`. -/
structure UpdateBody where
  username : Option String
  email : Option String

/-- The handler of `PUT /update`: `findByIdAndUpdate(req.user, { username, email },
{ new: true, fields: '-password' })`.  A key whose value is `undefined` is not part of
the update; by the unique index on `email` (modelled from the spec, see `UserSchema`)
the store rejects the write when the email changes to that of another document. -/
def updateHandler (env : Env) (body : UpdateBody) (user : String) (users : List User) :
    List User × Response :=
  match env.objectId user with
  | none => (users, ⟨500, msgBody "Internal server error"⟩)
  | some oid =>
    match findUserById users oid with
    | none => (users, ⟨404, msgBody "User not found"⟩)
    | some u =>
      let u' : User :=
        { u with username := body.username.getD u.username, email := body.email.getD u.email }
      if u'.email != u.email &&
          users.any (fun v => v._id != u'._id && v.email == u'.email) then
        (users, ⟨500, msgBody "Internal server error"⟩)
      else (replaceUser users u', ⟨200, .obj [("user", userWithoutPassword u')]⟩)

/-- The body of `POST /change-password`. -/
structure ChangePasswordBody where
  currentPassword : Option String
  newPassword : Option String

/-- The handler of `POST /change-password`.  The calls of `bcrypt` throw on an
argument that is `undefined`. -/
def changePasswordHandler (env : Env) (body : ChangePasswordBody) (user : String)
    (users : List User) : List User × Response :=
  match env.objectId user with
  | none => (users, ⟨500, msgBody "Internal server error"⟩)
  | some oid =>
    match findUserById users oid with
    | none => (users, ⟨400, msgBody "Invalid current password"⟩)
    | some u =>
      match body.currentPassword with
      | none => (users, ⟨500, msgBody "Internal server error"⟩)
      | some current =>
        if env.compare current u.password then
          match body.newPassword with
          | none => (users, ⟨500, msgBody "Internal server error"⟩)
          | some newPassword =>
            (replaceUser users { u with password := env.hash newPassword },
              ⟨200, .str "Password updated successfully"⟩)
        else (users, ⟨400, msgBody "Invalid current password"⟩)

/-- The handler of `POST /upload-profile-picture`; `file` is `req.file.path`, `none`
when the request carries no file.  The assignment throws on a user that is `null`
and on a file that is `undefined`. -/
def uploadProfilePictureHandler (env : Env) (file : Option String) (user : String)
    (users : List User) : List User × Response :=
  match env.objectId user with
  | none => (users, ⟨500, msgBody "Internal server error"⟩)
  | some oid =>
    match findUserById users oid, file with
    | some u, some path =>
      (replaceUser users { u with profilePicture := some path },
        ⟨200, .obj [("message", .str "Profile picture updated successfully")]⟩)
    | _, _ => (users, ⟨500, msgBody "Internal server error"⟩)

/-- A request to the User Service. -/
inductive UserRequest where
  | register (newId : String) (body : RegisterBody) : UserRequest
  | login (body : LoginBody) : UserRequest
  | profile (authorization : Option String) : UserRequest
  | update (authorization : Option String) (body : UpdateBody) : UserRequest
  | changePassword (authorization : Option String) (body : ChangePasswordBody) : UserRequest
  | uploadProfilePicture (authorization : Option String) (file : Option String) : UserRequest

/-- The router of `routes/api/users.js`. -/
def userService (env : Env) (req : UserRequest) (users : List User) : List User × Response :=
  match req with
  | .register newId body => register env newId body users
  | .login body => login env body users
  | .profile authorization => protect env authorization (profileHandler env) users
  | .update authorization body => protect env authorization (updateHandler env body) users
  | .changePassword authorization body =>
    protect env authorization (changePasswordHandler env body) users
  | .uploadProfilePicture authorization file =>
    protect env authorization (uploadProfilePictureHandler env file) users

/-! ## Numbers -/

/-- A JavaScript `Number`, an IEEE-754 double: `NaN`, an infinity with its sign, or
the finite value `(-1)^neg * mant * 2^exp`.  The arithmetic below returns a finite
value with an odd mantissa, or the mantissa and the exponent zero. -/
inductive JsNum where
  | nan : JsNum
  | inf (neg : Bool) : JsNum
  | fin (neg : Bool) (mant : Nat) (exp : Int) : JsNum
deriving DecidableEq

/-- The number of binary digits of `n`, by repeated halving (`fuel` bounds the
number of steps). -/
def bitLengthAux : Nat → Nat → Nat
  | 0, _ => 0
  | fuel + 1, n => if n = 0 then 0 else bitLengthAux fuel (n / 2) + 1

/-- The number of binary digits of `n`. -/
def bitLength (n : Nat) : Nat := bitLengthAux n n

/-- Moves the factors two of a mantissa into the exponent. -/
def stripTwos : Nat → Nat → Int → Nat × Int
  | 0, m, e => (m, e)
  | fuel + 1, m, e =>
    if m % 2 = 0 ∧ m ≠ 0 then stripTwos fuel (m / 2) (e + 1) else (m, e)

/-- The finite double `(-1)^neg * m * 2^e` in the form with an odd mantissa. -/
def finite (neg : Bool) (m : Nat) (e : Int) : JsNum :=
  if m = 0 then .fin neg 0 0
  else
    let r := stripTwos (bitLength m) m e
    .fin neg r.1 r.2

/-- Quotient, remainder and divisor of the integer division of `n * 2^k` by `d`. -/
def scaledQuotient (n d : Nat) (k : Int) : Nat × Nat × Nat :=
  match k with
  | .ofNat s =>
    let num := n <<< s
    (num / d, num % d, d)
  | .negSucc s =>
    let den := d <<< (s + 1)
    (n / den, n % den, den)

/-- Rounding to binary64 of the exact value `(-1)^neg * (n / d) * 2^e` with `d > 0`:
the quotient is scaled to 53 significant bits (fewer below the smallest normal
number, where the exponent stays `-1074`), rounded to the nearest integer with ties
to even, and a result of `2^1024` or more is the infinity. -/
def roundBinary64 (neg : Bool) (n d : Nat) (e : Int) : JsNum :=
  if n = 0 then .fin neg 0 0
  else
    let k0 : Int := 53 - ((bitLength n : Int) - (bitLength d : Int))
    let k1 : Int := if (scaledQuotient n d k0).1 < 2 ^ 53 then k0 else k0 - 1
    let k : Int := if e - k1 < -1074 then e + 1074 else k1
    let (q, r, den) := scaledQuotient n d k
    let rounded := if 2 * r > den ∨ (2 * r = den ∧ q % 2 = 1) then q + 1 else q
    if (bitLength rounded : Int) + (e - k) > 1024 then .inf neg
    else finite neg rounded (e - k)

/-- The double of the decimal literal with the value `n / d`, as `JSON.parse` and
the source text of a program read it. -/
def jsNumber (n d : Nat) : JsNum := roundBinary64 false n d 0

/-- The operator `-a`. -/
def JsNum.negate : JsNum → JsNum
  | .nan => .nan
  | .inf neg => .inf (!neg)
  | .fin neg m e => .fin (!neg) m e

/-- The operator `a + b`. -/
def jsAdd (a b : JsNum) : JsNum :=
  match a, b with
  | .nan, _ => .nan
  | _, .nan => .nan
  | .inf s, .inf t => if s = t then .inf s else .nan
  | .inf s, .fin _ _ _ => .inf s
  | .fin _ _ _, .inf t => .inf t
  | .fin s m e, .fin t n f =>
    let g := min e f
    let x : Int := (if s then -1 else 1) * (m <<< (e - g).toNat : Nat)
    let y : Int := (if t then -1 else 1) * (n <<< (f - g).toNat : Nat)
    let z := x + y
    if z = 0 then .fin (s && t) 0 0
    else roundBinary64 (decide (z < 0)) z.natAbs 1 g

/-- The operator `a - b`. -/
def jsSub (a b : JsNum) : JsNum := jsAdd a b.negate

/-- The operator `a * b`. -/
def jsMul (a b : JsNum) : JsNum :=
  match a, b with
  | .nan, _ => .nan
  | _, .nan => .nan
  | .inf s, .inf t => .inf (xor s t)
  | .inf s, .fin t n _ => if n = 0 then .nan else .inf (xor s t)
  | .fin s m _, .inf t => if m = 0 then .nan else .inf (xor s t)
  | .fin s m e, .fin t n f => roundBinary64 (xor s t) (m * n) 1 (e + f)

/-- The operator `a / b`. -/
def jsDiv (a b : JsNum) : JsNum :=
  match a, b with
  | .nan, _ => .nan
  | _, .nan => .nan
  | .inf _, .inf _ => .nan
  | .inf s, .fin t _ _ => .inf (xor s t)
  | .fin s _ _, .inf t => .fin (xor s t) 0 0
  | .fin s m e, .fin t n f =>
    if n = 0 then (if m = 0 then .nan else .inf (xor s t))
    else roundBinary64 (xor s t) m n (e - f)

/-- Is the number `NaN`? -/
def JsNum.isNaN : JsNum → Bool
  | .nan => true
  | _ => false

/-- Is the number `+0` or `-0`? -/
def JsNum.isZero : JsNum → Bool
  | .fin _ m _ => m == 0
  | _ => false

/-- The exact value of a finite number. -/
def JsNum.toRat : JsNum → Option ℚ
  | .fin neg m e => some ((if neg then -1 else 1) * (m : ℚ) * (2 : ℚ) ^ e)
  | _ => none

/-- A field of a JSON request body: absent (`undefined` after destructuring), `null`,
or a value of the type of its schema path. -/
inductive Field (α : Type) where
  | undefined : Field α
  | null : Field α
  | val (a : α) : Field α
deriving DecidableEq

/-- The conversion of a body field to a number in an arithmetic expression:
`undefined` becomes `NaN` and `null` becomes `+0`. -/
def toNumber (v : Field JsNum) : JsNum :=
  match v with
  | .undefined => .nan
  | .null => .fin false 0 0
  | .val x => x

/-- The expression `price - (price * (discount / 100))` of the create and the update
handler. -/
def computeTotalprice (price discount : Field JsNum) : JsNum :=
  jsSub (toNumber price) (jsMul (toNumber price) (jsDiv (toNumber discount) (jsNumber 100 1)))

/-! ## The catalog store: `models/Product.js`, `models/Category.js` -/

/-- The schema `ratingSchema`; `none` is a path that is `null` or absent. -/
structure Rating where
  rate : Option JsNum
  count : Option JsNum
deriving DecidableEq

/-- A stored document of `productSchema` (the timestamps are left out); `none` is a
path that is `null` or absent.  No stored number is `NaN`. -/
structure Product where
  _id : String
  title : Option String
  description : Option String
  category : Option String
  type : Option String
  sizes : Option (List String)
  size : Option String
  images : Option (List String)
  stock : Option String
  price : Option JsNum
  prevprice : Option JsNum
  qty : Option JsNum
  discount : Option JsNum
  totalprice : Option JsNum
  rating : Option Rating
deriving DecidableEq

/-- A stored document of `categorySchema` (the timestamps are left out). -/
structure Category where
  _id : String
  title : String
  products : List String
deriving DecidableEq

/-- The two collections of the catalog. -/
structure Catalog where
  products : List Product
  categories : List Category
deriving DecidableEq

/-- The fields of `req.body` that the create and the update handler destructure. -/
structure ProductBody where
  title : Field String
  description : Field String
  category : Field String
  type : Field String
  images : Field (List String)
  sizes : Field (List String)
  size : Field String
  stock : Field String
  price : Field JsNum
  prevprice : Field JsNum
  qty : Field JsNum
  discount : Field JsNum
  rating : Field Rating

/-- The body of a response of `routes/api/products.js`. -/
inductive ProductReply where
  | message (m : String) : ProductReply
  | errorMessage : ProductReply
  | product (p : Product) : ProductReply
deriving DecidableEq

/-- A response of `routes/api/products.js`; the body `errorMessage` is
`{ message: error.message }`, whose text is the library's. -/
structure ProductResponse where
  status : Nat
  body : ProductReply
deriving DecidableEq

/-- The test `!s` on a string field: true for `undefined`, `null` and the empty
string. -/
def falsy (s : Field String) : Bool :=
  match s with
  | .val v => v == ""
  | _ => true

/-- The test `!n` on a number field: true for `undefined`, `null`, `NaN` and the two
zeros. -/
def falsyNumber (n : Field JsNum) : Bool :=
  match n with
  | .val v => v.isNaN || v.isZero
  | _ => true

/-- The test `!a` on an array field: true for `undefined` and `null`; every array,
the empty one too, is truthy. -/
def falsyArray (a : Field (List String)) : Bool :=
  match a with
  | .val _ => false
  | _ => true

/-- Does the cast of a value to a `Number` path throw?  It throws for `NaN`. -/
def castFails (v : Field JsNum) : Bool :=
  match v with
  | .val x => x.isNaN
  | _ => false

/-- Does the cast of a value to the `rating` path throw? -/
def ratingCastFails (r : Field Rating) : Bool :=
  match r with
  | .val v => castFails (match v.rate with
      | some x => .val x
      | none => .null) ||
    castFails (match v.count with
      | some x => .val x
      | none => .null)
  | _ => false

/-- Does the cast of the fields of a body and of the computed `totalprice` throw? -/
def bodyCastFails (body : ProductBody) (totalprice : JsNum) : Bool :=
  castFails body.price || castFails body.prevprice || castFails body.qty ||
    castFails body.discount || totalprice.isNaN || ratingCastFails body.rating

/-- The value of a path of a new document: the default of the schema for
`undefined`, nothing for `null`. -/
def newPath {α : Type} (v : Field α) (default : Option α) : Option α :=
  match v with
  | .undefined => default
  | .null => none
  | .val a => some a

/-- The validator `required: true` of a `String` path: `null`, `undefined` and the
empty string fail. -/
def requiredString (s : Option String) : Bool :=
  match s with
  | some v => v != ""
  | none => false

/-- The document `new Product({ ... })` as validated by `save()`: `none` when the
validation fails, that is when a cast throws (a `NaN`, in particular a `totalprice`
that is `NaN`) or a required path is missing.  A path that is `undefined` takes the
default of the schema (`sizes`, `images`, `qty`, `discount`); the `required` of the
array path `images` is met by every array. -/
def newProductDoc (newId : String) (body : ProductBody) (totalprice : JsNum) :
    Option Product :=
  let doc : Product :=
    { _id := newId
      title := newPath body.title none
      description := newPath body.description none
      category := newPath body.category none
      type := newPath body.type none
      sizes := newPath body.sizes (some [])
      size := newPath body.size none
      images := newPath body.images (some [])
      stock := newPath body.stock none
      price := newPath body.price none
      prevprice := newPath body.prevprice none
      qty := newPath body.qty (some (.fin false 0 0))
      discount := newPath body.discount (some (.fin false 0 0))
      totalprice := some totalprice
      rating := newPath body.rating none }
  if bodyCastFails body totalprice then none
  else if requiredString doc.title && requiredString doc.description &&
      requiredString doc.category && requiredString doc.type && requiredString doc.stock &&
      doc.images.isSome && doc.price.isSome && doc.prevprice.isSome then some doc
  else none

/-- The filter `{ title: t }` of `Category.findOne`, for a title that may be `null`. -/
def hasTitle (t : Option String) (c : Category) : Bool :=
  t == some c.title

/-- The handler of `POST /` (create a product); `newId` is the identifier the driver
gives the new document. -/
def createProduct (newId : String) (body : ProductBody) (store : Catalog) :
    Catalog × ProductResponse :=
  if falsy body.title || falsy body.category || falsyNumber body.price
      || falsyArray body.images then
    (store, ⟨400, .message "Required fields are missing"⟩)
  else
    let totalprice := computeTotalprice body.price body.discount
    match newProductDoc newId body totalprice with
    | none => (store, ⟨500, .errorMessage⟩)
    | some newProduct =>
      if store.products.any (fun p => p._id == newProduct._id) then
        (store, ⟨500, .errorMessage⟩)
      else
        let categories := updateFirst (hasTitle newProduct.category)
          (fun c => { c with products := c.products ++ [newProduct._id] }) store.categories
        ({ products := store.products ++ [newProduct], categories := categories },
          ⟨201, .product newProduct⟩)

/-- The value of a path after an update: a key whose value is `undefined` is not
part of the update, `null` clears the path. -/
def setPath {α : Type} (v : Field α) (old : Option α) : Option α :=
  match v with
  | .undefined => old
  | .null => none
  | .val a => some a

/-- The update document of `PUT /:id` applied to a stored product. -/
def applyUpdate (p : Product) (body : ProductBody) (imageUrls : List String)
    (totalprice : JsNum) : Product :=
  { p with
    title := setPath body.title p.title
    description := setPath body.description p.description
    category := setPath body.category p.category
    type := setPath body.type p.type
    sizes := setPath body.sizes p.sizes
    size := setPath body.size p.size
    images := if imageUrls.length > 0 then some imageUrls else p.images
    stock := setPath body.stock p.stock
    price := setPath body.price p.price
    prevprice := setPath body.prevprice p.prevprice
    qty := setPath body.qty p.qty
    discount := setPath body.discount p.discount
    totalprice := some totalprice
    rating := setPath body.rating p.rating }

/-- The handler of `PUT /:id` (update a product); `files` are the names under which
the upload stored the files of the request.  A malformed identifier and a number that
is `NaN`, in particular a `totalprice` that is `NaN`, fail the cast of
`findByIdAndUpdate`, which throws before the store is touched. -/
def updateProduct (env : Env) (id : String) (body : ProductBody) (files : List String)
    (store : Catalog) : Catalog × ProductResponse :=
  let imageUrls := files.map (fun filename => "/uploads/products/" ++ filename)
  let totalprice := computeTotalprice body.price body.discount
  match env.objectId id with
  | none => (store, ⟨400, .errorMessage⟩)
  | some oid =>
    if bodyCastFails body totalprice then (store, ⟨400, .errorMessage⟩)
    else
      match store.products.find? (fun p => p._id == oid) with
      | none => (store, ⟨404, .message "Product not found"⟩)
      | some found =>
        let product := applyUpdate found body imageUrls totalprice
        ({ store with products :=
            updateFirst (fun p => p._id == oid) (fun _ => product) store.products },
          ⟨200, .product product⟩)

/-- The method `product._id.equals(productId)` on an entry of a category list: the
entry parses to the identifier. -/
def oidEquals (env : Env) (oid : String) (productId : String) : Bool :=
  env.objectId productId == some oid

/-- The handler of `DELETE /:id` (delete a product). -/
def deleteProduct (env : Env) (id : String) (store : Catalog) : Catalog × ProductResponse :=
  match env.objectId id with
  | none => (store, ⟨400, .message "Invalid product ID"⟩)
  | some oid =>
    match store.products.find? (fun p => p._id == oid) with
    | none => (store, ⟨404, .message "Product not found"⟩)
    | some product =>
      let categories := updateFirst (hasTitle product.category)
        (fun c => { c with
          products := c.products.filter (fun productId => !oidEquals env product._id productId) })
        store.categories
      ({ products := store.products.eraseP (fun p => p._id == oid), categories := categories },
        ⟨200, .message "Product deleted"⟩)

/-! ## The upload filter of `routes/api/products.js` -/

/-- The state of the scan of `path.extname` (POSIX): the variables `startDot`,
`startPart`, `end`, `matchedSlash` and `preDotState`; an index that is `-1` in the
library is `none`. -/
structure ExtnameState where
  startDot : Option Nat
  startPart : Nat
  endIdx : Option Nat
  matchedSlash : Bool
  preDotState : Int

/-- One iteration of the loop of `path.extname` at index `i` with character `code`;
the boolean is `true` when the loop breaks. -/
def extnameStep (code : Char) (i : Nat) (st : ExtnameState) : ExtnameState × Bool :=
  if code = '/' then
    if !st.matchedSlash then ({ st with startPart := i + 1 }, true)
    else (st, false)
  else
    let st1 : ExtnameState :=
      if st.endIdx.isNone then { st with matchedSlash := false, endIdx := some (i + 1) }
      else st
    if code = '.' then
      if st1.startDot.isNone then ({ st1 with startDot := some i }, false)
      else if st1.preDotState ≠ 1 then ({ st1 with preDotState := 1 }, false)
      else (st1, false)
    else if st1.startDot.isSome then ({ st1 with preDotState := -1 }, false)
    else (st1, false)

/-- The loop `for (let i = path.length - 1; i >= 0; --i)` of `path.extname`, entered
with `n = i + 1`. -/
def extnameLoop (path : List Char) : Nat → ExtnameState → ExtnameState
  | 0, st => st
  | i + 1, st =>
    match extnameStep (path.getD i ' ') i st with
    | (st', true) => st'
    | (st', false) => extnameLoop path i st'

/-- The function `path.extname` of Node.js (POSIX) on character lists. -/
def extnameChars (path : List Char) : List Char :=
  let st := extnameLoop path path.length
    { startDot := none, startPart := 0, endIdx := none, matchedSlash := true,
      preDotState := 0 }
  match st.startDot, st.endIdx with
  | some startDot, some endIdx =>
    if st.preDotState = 0 ∨
        (st.preDotState = 1 ∧ startDot + 1 = endIdx ∧ startDot = st.startPart + 1) then []
    else (path.drop startDot).take (endIdx - startDot)
  | _, _ => []

/-- The call `path.extname(name)`. -/
def extname (name : String) : String := ⟨extnameChars name.data⟩

/-- The call `s.toLowerCase()`, on the letters `A` to `Z`; the other characters are
left as they are. -/
def toLowerCase (s : String) : String := ⟨s.data.map Char.toLower⟩

/-- Does `pat` occur in the character list? -/
def hasSubstring (pat : List Char) : List Char → Bool
  | [] => pat.isEmpty
  | c :: cs => pat.isPrefixOf (c :: cs) || hasSubstring pat cs

/-- The test `allowedTypes.test(s)` of the regular expression `/jpeg|jpg|png|gif/`:
one of the four words occurs somewhere in `s`. -/
def allowedTypesTest (s : String) : Bool :=
  hasSubstring "jpeg".data s.data || hasSubstring "jpg".data s.data ||
    hasSubstring "png".data s.data || hasSubstring "gif".data s.data

/-- A file as the upload hands it to the filter. -/
structure UploadFile where
  originalname : String
  mimetype : String

/-- The option `fileFilter` of the upload: `cb(null, true)` is `Except.ok true`,
`cb('Error: Only images are allowed')` is the error. -/
def fileFilter (file : UploadFile) : Except String Bool :=
  let extnameOk := allowedTypesTest (toLowerCase (extname file.originalname))
  let mimetypeOk := allowedTypesTest file.mimetype
  if mimetypeOk && extnameOk then .ok true
  else .error "Error: Only images are allowed"

/-! ## Statements about the libraries and the store -/

/-- The round trip of `jsonwebtoken` for a token that is presented before it expires:
a token that `sign` returns is not empty and `verify` under the same secret returns
its payload. -/
def Jwt.RoundTrip (jwt : Jwt) : Prop :=
  ∀ payload secret expiresIn token, jwt.sign payload secret expiresIn = some token →
    token ≠ "" ∧ jwt.verify token secret = some payload

/-- No two user records share an email. -/
def EmailsUnique (users : List User) : Prop :=
  (users.map (fun u => u.email)).Nodup

instance (users : List User) : Decidable (EmailsUnique users) := by
  unfold EmailsUnique
  infer_instance

/-- No two user records share an identifier: the primary key of the collection. -/
def IdsUnique (users : List User) : Prop :=
  (users.map (fun u => u._id)).Nodup

instance (users : List User) : Decidable (IdsUnique users) := by
  unfold IdsUnique
  infer_instance

/-- The store with every stored password hash blanked. -/
def erasePasswords (users : List User) : List User :=
  users.map (fun u => { u with password := "" })

/-- The store with every stored password hash `h` replaced by `f h`. -/
def relabelHashes (f : String → String) (users : List User) : List User :=
  users.map (fun u => { u with password := f u.password })

/-- The environment whose hash library writes `f h` where the given one writes `h`,
and compares against `f h` as the given one compares against `h` (`g` undoes `f`). -/
def relabelEnv (f g : String → String) (env : Env) : Env :=
  { env with
    hash := fun password => f (env.hash password)
    compare := fun password h => env.compare password (g h) }

/-- The value of `P - P * D / 100` in exact arithmetic, for finite `P` and `D`. -/
def exactTotalprice (P D : JsNum) : Option ℚ :=
  match P.toRat, D.toRat with
  | some p, some d => some (p - p * d / 100)
  | _, _ => none

/-! ## Example data -/

/-- An example of a token library: one secret, tokens of the form `tok:<id>` for a
payload without role and `tok:<id>:<role>` for one with a role.  It signs for the
two example users only. -/
def exampleJwt : Jwt where
  sign := fun payload secret _ =>
    if secret = "s3cret" then
      if payload = ⟨"u1", some "user"⟩ then some "tok:u1:user"
      else if payload = ⟨"u2", none⟩ then some "tok:u2"
      else if payload = ⟨"u2", some "user"⟩ then some "tok:u2:user"
      else none
    else none
  verify := fun token secret =>
    if secret = "s3cret" then
      if token = "tok:u1:user" then some ⟨"u1", some "user"⟩
      else if token = "tok:u2" then some ⟨"u2", none⟩
      else if token = "tok:u2:user" then some ⟨"u2", some "user"⟩
      else none
    else none

/-- An example environment: the example token library, a hash that prefixes `h:`, and
an identifier parser that accepts the strings of two characters. -/
def exampleEnv : Env where
  jwt := exampleJwt
  hash := fun password => "h:" ++ password
  compare := fun password hash => hash == "h:" ++ password
  objectId := fun s => if s.length = 2 then some s else none
  config := { jwtSecret := some "s3cret", tokenExpire := some "" }
  userSchema := { defaultRole := "user" }

/-- An example user. -/
def exampleAnn : User :=
  { _id := "u1", username := "ann", email := "ann@example.com", password := "h:pw1",
    role := "user", profilePicture := none }

/-- A second example user. -/
def exampleBob : User :=
  { _id := "u2", username := "bob", email := "bob@example.com", password := "h:pw2",
    role := "user", profilePicture := none }

/-- An example credential store with one user. -/
def exampleUsers : List User := [exampleAnn]

/-- An example credential store with two users. -/
def exampleTwoUsers : List User := [exampleAnn, exampleBob]

/-- An example request body of a product: price 100, discount 20, one image. -/
def exampleBody : ProductBody where
  title := .val "Runner"
  description := .val "Running shoe"
  category := .val "Shoes"
  type := .val "sport"
  images := .val ["/uploads/products/1.png"]
  sizes := .undefined
  size := .undefined
  stock := .val "in stock"
  price := .val (jsNumber 100 1)
  prevprice := .val (jsNumber 120 1)
  qty := .undefined
  discount := .val (jsNumber 20 1)
  rating := .undefined

/-- The body `{ title: 'New title' }` of an update that changes the title only. -/
def exampleTitleOnly : ProductBody where
  title := .val "New title"
  description := .undefined
  category := .undefined
  type := .undefined
  images := .undefined
  sizes := .undefined
  size := .undefined
  stock := .undefined
  price := .undefined
  prevprice := .undefined
  qty := .undefined
  discount := .undefined
  rating := .undefined

/-- An example product of the category `Shoes`. -/
def exampleRunner : Product :=
  { _id := "p1", title := some "Runner", description := some "Running shoe",
    category := some "Shoes", type := some "sport", sizes := some [], size := none,
    images := some ["/uploads/products/1.png"], stock := some "in stock",
    price := some (jsNumber 100 1), prevprice := some (jsNumber 120 1),
    qty := some (jsNumber 0 1), discount := some (jsNumber 20 1),
    totalprice := some (jsNumber 80 1), rating := none }

/-- A second example product of the category `Shoes`. -/
def exampleBoot : Product :=
  { _id := "p2", title := some "Boot", description := some "Winter boot",
    category := some "Shoes", type := some "winter", sizes := some [], size := none,
    images := some ["/uploads/products/2.png"], stock := some "in stock",
    price := some (jsNumber 50 1), prevprice := some (jsNumber 60 1),
    qty := some (jsNumber 0 1), discount := some (jsNumber 0 1),
    totalprice := some (jsNumber 50 1), rating := none }

/-- The example category `Shoes`, which lists the two example products. -/
def exampleShoes : Category :=
  { _id := "c1", title := "Shoes", products := ["p1", "p2"] }

/-- An example catalog: the category `Shoes` lists the products `p1` and `p2`. -/
def exampleCatalog : Catalog where
  products := [exampleRunner, exampleBoot]
  categories := [exampleShoes]

/-! ## The middleware -/

theorem replaceFirstChars_prefix (pat rep rest : List Char) :
    replaceFirstChars pat rep (pat ++ rest) = rep ++ rest := by
  cases h : pat ++ rest with
  | nil =>
    have hp : pat = [] := (List.append_eq_nil.mp h).1
    have hr : rest = [] := (List.append_eq_nil.mp h).2
    simp [replaceFirstChars, hp, hr]
  | cons c cs =>
    have hpre : pat.isPrefixOf (c :: cs) = true := by
      rw [← h]; simp
    have hdrop : (c :: cs).drop pat.length = rest := by
      rw [← h]; simp
    rw [replaceFirstChars, if_pos hpre, hdrop]

theorem extractToken_bearer (token : String) :
    extractToken (some ("Bearer " ++ token)) = some token := by
  have h : ("Bearer " ++ token).data = "Bearer ".data ++ token.data := rfl
  have h2 := replaceFirstChars_prefix "Bearer ".data "".data token.data
  simp only [extractToken, Option.map_some', jsReplace, h, h2]
  rfl

/-- Claim C1.  The middleware calls `next` if and only if the request carries a token
that verifies under the configured secret.  Without a token (no header, or a header
that leaves the empty string) it answers 401 and does not call `next`; with a token
whose verification throws it answers 400 and does not call `next`; with a token that
verifies it sets `req.user` to the id of the payload, calls `next` exactly once and
writes no response. -/
theorem auth_contract (jwt : Jwt) (config : Config) (authorization : Option String) :
    ((extractToken authorization = none ∨ extractToken authorization = some "") →
      (auth jwt config authorization).response.map (fun r => r.status) = some 401 ∧
      (auth jwt config authorization).nextCalls = 0) ∧
    (∀ token, extractToken authorization = some token → token ≠ "" →
      verifyToken jwt config token = none →
      (auth jwt config authorization).response.map (fun r => r.status) = some 400 ∧
      (auth jwt config authorization).nextCalls = 0) ∧
    (∀ token decoded, extractToken authorization = some token → token ≠ "" →
      verifyToken jwt config token = some decoded →
      (auth jwt config authorization).response = none ∧
      (auth jwt config authorization).user = some decoded.id ∧
      (auth jwt config authorization).nextCalls = 1) ∧
    (0 < (auth jwt config authorization).nextCalls ↔
      ∃ token, extractToken authorization = some token ∧ token ≠ "" ∧
        (verifyToken jwt config token).isSome = true) := by
  refine ⟨?_, ?_, ?_, ?_⟩
  · rintro (h | h) <;> simp [auth, h, AuthOutcome.response, AuthOutcome.nextCalls]
  · intro token h hne hv
    simp [auth, h, hne, hv, AuthOutcome.response, AuthOutcome.nextCalls]
  · intro token decoded h hne hv
    simp [auth, h, hne, hv, AuthOutcome.response, AuthOutcome.nextCalls, AuthOutcome.user]
  · cases h : extractToken authorization with
    | none => simp [auth, h, AuthOutcome.nextCalls]
    | some token =>
      by_cases hne : token = ""
      · simp [auth, h, hne, AuthOutcome.nextCalls]
      · cases hv : verifyToken jwt config token with
        | none => simp [auth, h, hne, hv, AuthOutcome.nextCalls]
        | some decoded => simp [auth, h, hne, hv, AuthOutcome.nextCalls]

/-- Witness of claim C1: the three outcomes of the middleware on requests without
header, with a token that does not verify and with a token that verifies. -/
theorem auth_contract_witness :
    (auth exampleJwt exampleEnv.config none).response.map (fun r => r.status) = some 401 ∧
    (auth exampleJwt exampleEnv.config (some "Bearer forged")).response.map
      (fun r => r.status) = some 400 ∧
    (auth exampleJwt exampleEnv.config (some "Bearer tok:u2")).user = some "u2" ∧
    (auth exampleJwt exampleEnv.config (some "Bearer tok:u2")).nextCalls = 1 :=
  ⟨((auth_contract exampleJwt exampleEnv.config none).1 (Or.inl rfl)).1,
   ((auth_contract exampleJwt exampleEnv.config (some "Bearer forged")).2.1 "forged"
      (by decide) (by decide) (by decide)).1,
   ((auth_contract exampleJwt exampleEnv.config (some "Bearer tok:u2")).2.2.1 "tok:u2"
      ⟨"u2", none⟩ (by decide) (by decide) (by decide)).2.1,
   ((auth_contract exampleJwt exampleEnv.config (some "Bearer tok:u2")).2.2.1 "tok:u2"
      ⟨"u2", none⟩ (by decide) (by decide) (by decide)).2.2⟩

/-! ## Tokens issued by register and login -/

theorem signToken_verifies (env : Env) (hjwt : env.jwt.RoundTrip) (payload : Payload)
    (token : String) (h : signToken env payload = some token) :
    token ≠ "" ∧ verifyToken env.jwt env.config token = some payload := by
  unfold signToken at h
  cases hs : env.config.jwtSecret with
  | none => simp [hs] at h
  | some secret =>
    cases he : tokenExpiry env.config with
    | none => simp [hs, he] at h
    | some expiresIn =>
      simp only [hs, he] at h
      obtain ⟨hne, hv⟩ := hjwt payload secret expiresIn token h
      exact ⟨hne, by simp [verifyToken, hs, hv]⟩

theorem auth_bearer (jwt : Jwt) (config : Config) (token : String) (payload : Payload)
    (hne : token ≠ "") (hv : verifyToken jwt config token = some payload) :
    auth jwt config (some ("Bearer " ++ token)) = .next payload.id := by
  simp [auth, extractToken_bearer, hne, hv]

theorem insertUser_some (users stored : List User) (u : User)
    (h : insertUser users u = some stored) : stored = users ++ [u] := by
  unfold insertUser at h
  split at h
  · simp at h
  · split at h
    · simp at h
    · simpa using h.symm

theorem register_created (env : Env) (newId : String) (body : RegisterBody)
    (users : List User) (h : (register env newId body users).2.status = 201) :
    ∃ username email password token,
      body.username = some username ∧ body.email = some email ∧
      body.password = some password ∧ findUserByEmail users email = none ∧
      signToken env { id := newId, role := none } = some token ∧
      register env newId body users =
        (users ++ [{ _id := newId, username := username, email := email,
                     password := env.hash password, role := env.userSchema.defaultRole,
                     profilePicture := none }],
         ⟨201, .obj [("token", .str token),
            ("user", .obj [("id", .str newId), ("username", .str username),
              ("email", .str email)])]⟩) := by
  cases hu : body.username with
  | none => simp [register, hu] at h
  | some username =>
    cases he : body.email with
    | none => simp [register, hu, he] at h
    | some email =>
      cases hp : body.password with
      | none => simp [register, hu, he, hp] at h
      | some password =>
        by_cases hfields : username = "" ∨ email = "" ∨ password = ""
        · simp [register, hu, he, hp, hfields] at h
        · cases hfind : findUserByEmail users email with
          | some existing => simp [register, hu, he, hp, hfields, hfind] at h
          | none =>
            cases hins : insertUser users
                { _id := newId, username := username, email := email,
                  password := env.hash password, role := env.userSchema.defaultRole,
                  profilePicture := none } with
            | none => simp [register, hu, he, hp, hfields, hfind, hins] at h
            | some stored =>
              cases hsign : signToken env { id := newId, role := none } with
              | none => simp [register, hu, he, hp, hfields, hfind, hins, hsign] at h
              | some token =>
                have hstored := insertUser_some _ _ _ hins
                refine ⟨username, email, password, token, rfl, rfl, rfl, hfind, rfl, ?_⟩
                simp [register, hu, he, hp, hfields, hfind, hins, hsign, hstored]

theorem login_ok (env : Env) (body : LoginBody) (users : List User)
    (h : (login env body users).2.status = 200) :
    ∃ email password user token,
      body.email = some email ∧ body.password = some password ∧
      findUserByEmail users email = some user ∧
      env.compare password user.password = true ∧
      signToken env { id := user._id, role := some user.role } = some token ∧
      login env body users =
        (users, ⟨200, .obj [("token", .str token), ("username", .str user.username),
          ("role", .str user.role)]⟩) := by
  cases he : body.email with
  | none => simp [login, he] at h
  | some email =>
    cases hp : body.password with
    | none => simp [login, he, hp] at h
    | some password =>
      by_cases hfields : email = "" ∨ password = ""
      · simp [login, he, hp, hfields] at h
      · cases hfind : findUserByEmail users email with
        | none => simp [login, he, hp, hfields, hfind] at h
        | some user =>
          by_cases hc : env.compare password user.password = true
          · cases hsign : signToken env { id := user._id, role := some user.role } with
            | none => simp [login, he, hp, hfields, hfind, hc, hsign] at h
            | some token =>
              refine ⟨email, password, user, token, rfl, rfl, hfind, hc, hsign, ?_⟩
              simp [login, he, hp, hfields, hfind, hc, hsign]
          · simp [login, he, hp, hfields, hfind, hc] at h

theorem find?_email_mem (users : List User) (email : String) (user : User)
    (h : findUserByEmail users email = some user) : user ∈ users ∧ user.email = email := by
  unfold findUserByEmail at h
  exact ⟨List.mem_of_find?_eq_some h, by simpa using List.find?_some h⟩

/-- Claim C2.  Under the round trip of the token library, the token of a successful
register (201) or login (200), presented as `Authorization: Bearer <token>`, passes the
middleware, and the identity the middleware attaches is the identifier of that user:
the record register appended for the email of the request, respectively the stored
record with the email of the login; the payload of the login token carries the
stored role of that record. -/
theorem issued_token_accepted (env : Env) (hjwt : env.jwt.RoundTrip) :
    (∀ newId body users, (register env newId body users).2.status = 201 →
      ∃ token user,
        (register env newId body users).1 = users ++ [user] ∧
        some user.email = body.email ∧ user._id = newId ∧
        (register env newId body users).2.body =
          .obj [("token", .str token),
            ("user", .obj [("id", .str user._id), ("username", .str user.username),
              ("email", .str user.email)])] ∧
        auth env.jwt env.config (some ("Bearer " ++ token)) = .next user._id) ∧
    (∀ body users, (login env body users).2.status = 200 →
      ∃ token user,
        user ∈ users ∧ some user.email = body.email ∧
        (login env body users).2.body =
          .obj [("token", .str token), ("username", .str user.username),
            ("role", .str user.role)] ∧
        verifyToken env.jwt env.config token = some ⟨user._id, some user.role⟩ ∧
        auth env.jwt env.config (some ("Bearer " ++ token)) = .next user._id) := by
  constructor
  · intro newId body users h
    obtain ⟨username, email, password, token, _, he, _, _, hsign, heq⟩ :=
      register_created env newId body users h
    obtain ⟨hne, hv⟩ := signToken_verifies env hjwt _ token hsign
    refine ⟨token, _, by rw [heq], by simp [he], rfl, by rw [heq], ?_⟩
    exact auth_bearer env.jwt env.config token _ hne hv
  · intro body users h
    obtain ⟨email, password, user, token, he, _, hfind, _, hsign, heq⟩ :=
      login_ok env body users h
    obtain ⟨hne, hv⟩ := signToken_verifies env hjwt _ token hsign
    obtain ⟨hmem, hmail⟩ := find?_email_mem users email user hfind
    refine ⟨token, user, hmem, by simp [he, hmail], by rw [heq], hv, ?_⟩
    exact auth_bearer env.jwt env.config token _ hne hv

theorem exampleJwt_roundTrip : exampleJwt.RoundTrip := by
  intro payload secret expiresIn token h
  simp only [exampleJwt] at h ⊢
  split at h
  · rename_i hs
    subst hs
    split at h
    · cases h; rename_i hp; subst hp; exact ⟨by decide, by decide⟩
    · split at h
      · cases h; rename_i hp; subst hp; exact ⟨by decide, by decide⟩
      · split at h
        · cases h; rename_i hp; subst hp; exact ⟨by decide, by decide⟩
        · cases h
  · cases h

/-- Witness of claim C2: a second user registers in the example store and the first
user logs in; both tokens pass the middleware with the identifier of their user. -/
theorem issued_token_accepted_witness :
    exampleEnv.jwt.RoundTrip ∧
    (register exampleEnv "u2" ⟨some "bob", some "bob@example.com", some "pw2"⟩
      exampleUsers).2.status = 201 ∧
    (login exampleEnv ⟨some "ann@example.com", some "pw1"⟩ exampleUsers).2.status = 200 ∧
    (∃ token user,
      (register exampleEnv "u2" ⟨some "bob", some "bob@example.com", some "pw2"⟩
        exampleUsers).1 = exampleUsers ++ [user] ∧
      some user.email = some "bob@example.com" ∧ user._id = "u2" ∧
      (register exampleEnv "u2" ⟨some "bob", some "bob@example.com", some "pw2"⟩
        exampleUsers).2.body =
        .obj [("token", .str token),
          ("user", .obj [("id", .str user._id), ("username", .str user.username),
            ("email", .str user.email)])] ∧
      auth exampleEnv.jwt exampleEnv.config (some ("Bearer " ++ token)) = .next user._id) :=
  ⟨exampleJwt_roundTrip, by decide, by decide,
    (issued_token_accepted exampleEnv exampleJwt_roundTrip).1 "u2"
      ⟨some "bob", some "bob@example.com", some "pw2"⟩ exampleUsers (by decide)⟩

/-! ## Lists as collections -/

theorem find?_split {α : Type} (p : α → Bool) (l : List α) (x : α)
    (h : l.find? p = some x) :
    ∃ pre post, l = pre ++ x :: post ∧ (∀ d ∈ pre, p d = false) ∧ p x = true := by
  induction l with
  | nil => simp at h
  | cons a as ih =>
    by_cases hpa : p a = true
    · rw [List.find?_cons_of_pos _ hpa] at h
      cases h
      exact ⟨[], as, rfl, by simp, hpa⟩
    · rw [List.find?_cons_of_neg _ hpa] at h
      obtain ⟨pre, post, hl, hpre, hx⟩ := ih h
      refine ⟨a :: pre, post, by simp [hl], ?_, hx⟩
      intro d hd
      rcases List.mem_cons.mp hd with rfl | hd
      · simpa using hpa
      · exact hpre d hd

theorem updateFirst_split {α : Type} (p : α → Bool) (f : α → α) (pre post : List α) (x : α)
    (hpre : ∀ d ∈ pre, p d = false) (hx : p x = true) :
    updateFirst p f (pre ++ x :: post) = pre ++ f x :: post := by
  induction pre with
  | nil => simp [updateFirst, hx]
  | cons a as ih =>
    have ha : p a = false := hpre a (List.mem_cons_self _ _)
    have has : ∀ d ∈ as, p d = false := fun d hd => hpre d (List.mem_cons_of_mem _ hd)
    simp [updateFirst, ha, ih has]

theorem eraseP_split {α : Type} (p : α → Bool) (pre post : List α) (x : α)
    (hpre : ∀ d ∈ pre, p d = false) (hx : p x = true) :
    (pre ++ x :: post).eraseP p = pre ++ post := by
  induction pre with
  | nil => simp [List.eraseP_cons, hx]
  | cons a as ih =>
    have ha : p a = false := hpre a (List.mem_cons_self _ _)
    have has : ∀ d ∈ as, p d = false := fun d hd => hpre d (List.mem_cons_of_mem _ hd)
    simp [List.eraseP_cons, ha, ih has]

theorem find?_of_mem_nodup (products : List Product) (product : Product)
    (hnodup : (products.map (fun p => p._id)).Nodup) (hmem : product ∈ products) :
    products.find? (fun p => p._id == product._id) = some product := by
  have hsome : (products.find? (fun p => p._id == product._id)).isSome = true := by
    rw [List.find?_isSome]
    exact ⟨product, hmem, by simp⟩
  obtain ⟨found, hfound⟩ := Option.isSome_iff_exists.mp hsome
  have hfmem : found ∈ products := List.mem_of_find?_eq_some hfound
  have hfid : found._id = product._id := by simpa using List.find?_some hfound
  have := List.inj_on_of_nodup_map hnodup hfmem hmem hfid
  rw [hfound, this]

/-! ## Product creation -/

theorem newProductDoc_some (newId : String) (body : ProductBody) (total : JsNum)
    (product : Product) (h : newProductDoc newId body total = some product) :
    product.totalprice = some total ∧ product.price = newPath body.price none ∧
    product.discount = newPath body.discount (some (.fin false 0 0)) ∧
    product.images = newPath body.images (some []) ∧ product._id = newId ∧
    product.category = newPath body.category none := by
  unfold newProductDoc at h
  simp only at h
  split at h
  · cases h
  · split at h
    · cases h
      exact ⟨rfl, rfl, rfl, rfl, rfl, rfl⟩
    · cases h

theorem createProduct_created (newId : String) (body : ProductBody) (store : Catalog)
    (h : (createProduct newId body store).2.status = 201) :
    ∃ product,
      newProductDoc newId body (computeTotalprice body.price body.discount) = some product ∧
      createProduct newId body store =
        (⟨store.products ++ [product],
          updateFirst (hasTitle product.category)
            (fun c => { c with products := c.products ++ [product._id] })
            store.categories⟩,
         ⟨201, .product product⟩) := by
  unfold createProduct at h ⊢
  split at h
  · simp at h
  · rename_i hvalid
    rw [if_neg hvalid]
    cases hdoc : newProductDoc newId body (computeTotalprice body.price body.discount) with
    | none => simp [hdoc] at h
    | some product =>
      simp only [hdoc] at h ⊢
      split at h
      · simp at h
      · rename_i hdup
        exact ⟨product, rfl, by rw [if_neg hdup]⟩

/-- Claim C3, amended.  A create call with price `P` and discount `D` that is
answered 201 stores the product it returns, with price `P` and discount `D`, and the
`totalprice` of that product is the double that the expression
`P - (P * (D / 100))` has in IEEE-754 arithmetic, each of the three operations
rounded to the nearest double. -/
theorem create_totalprice (newId : String) (body : ProductBody) (store : Catalog)
    (P D : JsNum) (hP : body.price = .val P) (hD : body.discount = .val D)
    (h : (createProduct newId body store).2.status = 201) :
    ∃ product,
      (createProduct newId body store).2.body = .product product ∧
      (createProduct newId body store).1.products = store.products ++ [product] ∧
      product.price = some P ∧ product.discount = some D ∧
      product.totalprice = some (jsSub P (jsMul P (jsDiv D (jsNumber 100 1)))) := by
  obtain ⟨product, hdoc, heq⟩ := createProduct_created newId body store h
  obtain ⟨htotal, hprice, hdisc, _, _, _⟩ := newProductDoc_some _ _ _ _ hdoc
  refine ⟨product, by rw [heq], by rw [heq], ?_, ?_, ?_⟩
  · rw [hprice, hP]; rfl
  · rw [hdisc, hD]; rfl
  · rw [htotal, hP, hD]; rfl

/-- Witness of claim C3: price 100 and discount 20 give the total price 80. -/
theorem create_totalprice_witness :
    (createProduct "p3" exampleBody exampleCatalog).2.status = 201 ∧
    jsSub (jsNumber 100 1) (jsMul (jsNumber 100 1) (jsDiv (jsNumber 20 1) (jsNumber 100 1))) =
      jsNumber 80 1 ∧
    ∃ product,
      (createProduct "p3" exampleBody exampleCatalog).2.body = .product product ∧
      (createProduct "p3" exampleBody exampleCatalog).1.products =
        exampleCatalog.products ++ [product] ∧
      product.price = some (jsNumber 100 1) ∧ product.discount = some (jsNumber 20 1) ∧
      product.totalprice = some (jsSub (jsNumber 100 1)
        (jsMul (jsNumber 100 1) (jsDiv (jsNumber 20 1) (jsNumber 100 1)))) :=
  ⟨by decide, by decide,
    create_totalprice "p3" exampleBody exampleCatalog (jsNumber 100 1) (jsNumber 20 1)
      rfl rfl (by decide)⟩

/-- The example of the specification: at price 100 and discount 20 the double
expression is the double 80, which is the exact value `100 - 100 * 20 / 100`. -/
theorem exampleTotalprice_exact :
    jsSub (jsNumber 100 1) (jsMul (jsNumber 100 1) (jsDiv (jsNumber 20 1) (jsNumber 100 1))) =
      .fin false 5 4 ∧
    (JsNum.fin false 5 4).toRat = some 80 ∧
    exactTotalprice (.fin false 25 2) (.fin false 5 2) = some 80 ∧
    jsNumber 100 1 = .fin false 25 2 ∧ jsNumber 20 1 = .fin false 5 2 := by
  refine ⟨by decide, ?_, ?_, by decide, by decide⟩
  · simp only [JsNum.toRat]
    norm_num
  · simp only [JsNum.toRat, exactTotalprice]
    norm_num

set_option maxRecDepth 100000 in
/-- Counterexample to claim C3 as stated: at price 1.1 and discount 10 the create is
answered 201 and the stored `totalprice` is the double 0.9900000000000001, that is
`8917127262193583 * 2^(-53)`, which is not `P - P * D / 100` for the price `P` (the
double of 1.1) and the discount `D = 10`. -/
theorem create_totalprice_not_exact :
    jsNumber 11 10 = .fin false 2476979795053773 (-51) ∧
    jsNumber 10 1 = .fin false 5 1 ∧
    (createProduct "p3"
      { exampleBody with price := .val (jsNumber 11 10), discount := .val (jsNumber 10 1) }
      exampleCatalog).2 =
      ⟨201, .product
        { _id := "p3", title := some "Runner", description := some "Running shoe",
          category := some "Shoes", type := some "sport", sizes := some [], size := none,
          images := some ["/uploads/products/1.png"], stock := some "in stock",
          price := some (jsNumber 11 10), prevprice := some (jsNumber 120 1),
          qty := some (.fin false 0 0), discount := some (jsNumber 10 1),
          totalprice := some (.fin false 8917127262193583 (-53)), rating := none }⟩ ∧
    (JsNum.fin false 8917127262193583 (-53)).toRat ≠
      exactTotalprice (.fin false 2476979795053773 (-51)) (.fin false 5 1) := by
  refine ⟨by decide, by decide, by rfl, ?_⟩
  simp only [JsNum.toRat, exactTotalprice]
  norm_num

/-! ## The guard of product creation -/

theorem createProduct_rejected_iff (newId : String) (body : ProductBody) (store : Catalog) :
    (createProduct newId body store).2.status = 400 ↔
      (falsy body.title = true ∨ falsy body.category = true ∨
        falsyNumber body.price = true ∨ falsyArray body.images = true) := by
  unfold createProduct
  split
  · rename_i hg
    simpa [or_assoc] using hg
  · rename_i hg
    have hno : ¬ (falsy body.title = true ∨ falsy body.category = true ∨
        falsyNumber body.price = true ∨ falsyArray body.images = true) := by
      simpa [or_assoc] using hg
    dsimp only
    split
    · simp [hno]
    · split <;> simp [hno]

/-- A create request that the guard rejects is answered 400 with the store unchanged. -/
theorem createProduct_rejected (newId : String) (body : ProductBody) (store : Catalog)
    (h : (createProduct newId body store).2.status = 400) :
    createProduct newId body store =
      (store, ⟨400, .message "Required fields are missing"⟩) := by
  have hg := (createProduct_rejected_iff newId body store).mp h
  unfold createProduct
  rw [if_pos (by simpa [or_assoc] using hg)]

/-- Claim C8, the code at the failing inputs.  A create request whose image list is
empty is not answered 400: it is answered 201 and the product is persisted with no
image.  A create request that supplies title, category, an image and the price 0 is
answered 400. -/
theorem create_empty_images_not_rejected :
    (createProduct "p3" { exampleBody with images := .val [] } exampleCatalog).2.status = 201 ∧
    ((createProduct "p3" { exampleBody with images := .val [] } exampleCatalog).1.products.map
      (fun p => (p._id, p.images))) =
      [("p1", some ["/uploads/products/1.png"]), ("p2", some ["/uploads/products/2.png"]),
       ("p3", some [])] ∧
    createProduct "p3" { exampleBody with price := .val (jsNumber 0 1) } exampleCatalog =
      (exampleCatalog, ⟨400, .message "Required fields are missing"⟩) := by
  decide

/-! ## Product update -/

theorem computeTotalprice_undefined (price discount : Field JsNum)
    (h : price = .undefined ∨ discount = .undefined) :
    computeTotalprice price discount = .nan := by
  rcases h with h | h
  · subst h
    simp [computeTotalprice, toNumber, jsSub, jsAdd]
  · subst h
    have hdiv : jsDiv (toNumber (.undefined : Field JsNum)) (jsNumber 100 1) = .nan := by
      simp [toNumber, jsDiv]
    have hmul : ∀ x : JsNum, jsMul x .nan = .nan := by
      intro x
      cases x <;> simp [jsMul]
    have hsub : ∀ x : JsNum, jsSub x .nan = .nan := by
      intro x
      cases x <;> simp [jsSub, jsAdd, JsNum.negate]
    simp only [computeTotalprice, hdiv, hmul, hsub]

/-- An update whose payload omits the price or the discount is answered 400 and
leaves the store unchanged, whatever the identifier and the store: the recomputed
`totalprice` is `NaN`. -/
theorem updateProduct_without_price_or_discount (env : Env) (id : String)
    (body : ProductBody) (files : List String) (store : Catalog)
    (h : body.price = .undefined ∨ body.discount = .undefined) :
    updateProduct env id body files store = (store, ⟨400, .errorMessage⟩) := by
  have hnan := computeTotalprice_undefined body.price body.discount h
  have hcast : bodyCastFails body .nan = true := by
    simp [bodyCastFails, JsNum.isNaN]
  unfold updateProduct
  simp only [hnan, hcast, if_true]
  cases env.objectId id <;> rfl

/-- An update that is answered 200 stores, under the identifier, the product it
returns; its `totalprice` is the double of `price - (price * (discount / 100))`
computed from the payload, which has both the price and the discount. -/
theorem updateProduct_ok (env : Env) (id : String) (body : ProductBody) (files : List String)
    (store : Catalog) (h : (updateProduct env id body files store).2.status = 200) :
    ∃ oid found product,
      env.objectId id = some oid ∧
      store.products.find? (fun p => p._id == oid) = some found ∧
      body.price ≠ .undefined ∧ body.discount ≠ .undefined ∧
      (updateProduct env id body files store).2.body = .product product ∧
      (updateProduct env id body files store).1.products.find? (fun p => p._id == oid) =
        some product ∧
      product.price = setPath body.price found.price ∧
      product.discount = setPath body.discount found.discount ∧
      product.totalprice = some (computeTotalprice body.price body.discount) := by
  have hp : body.price ≠ .undefined := by
    intro hp
    rw [updateProduct_without_price_or_discount env id body files store (Or.inl hp)] at h
    simp at h
  have hd : body.discount ≠ .undefined := by
    intro hd
    rw [updateProduct_without_price_or_discount env id body files store (Or.inr hd)] at h
    simp at h
  unfold updateProduct at h ⊢
  dsimp only at h ⊢
  cases hid : env.objectId id with
  | none => simp [hid] at h
  | some oid =>
    simp only [hid] at h ⊢
    split at h
    · simp at h
    · rename_i hcast
      rw [if_neg hcast]
      cases hfind : store.products.find? (fun p => p._id == oid) with
      | none => simp [hfind] at h
      | some found =>
        obtain ⟨pre, post, hl, hpre, hx⟩ := find?_split _ _ _ hfind
        have hfid : found._id = oid := by simpa using hx
        refine ⟨oid, found, _, rfl, hfind, hp, hd, rfl, ?_, rfl, rfl, rfl⟩
        simp only
        rw [hl, updateFirst_split _ _ pre post found hpre hx, List.find?_append]
        have hnone : pre.find? (fun p => p._id == oid) = none := by
          rw [List.find?_eq_none]
          intro d hd
          simpa using hpre d hd
        rw [hnone]
        simp [applyUpdate, hfid]

/-- Claim C4, the code at the failing input.  The update of the stored example
product `p1` with the payload `{ title: 'New title' }`, which omits price and
discount, is answered 400 and changes nothing: the title is not updated and no
`totalprice` is recomputed from the stored price 100 and discount 20. -/
theorem update_title_only_fails :
    exampleCatalog.products.find? (fun p => p._id == "p1") = some exampleRunner ∧
    computeTotalprice exampleTitleOnly.price exampleTitleOnly.discount = .nan ∧
    updateProduct exampleEnv "p1" exampleTitleOnly [] exampleCatalog =
      (exampleCatalog, ⟨400, .errorMessage⟩) := by
  decide

/-- The same update with the price and the discount in the payload is answered 200. -/
theorem exampleUpdate_ok :
    (updateProduct exampleEnv "p1"
      { exampleTitleOnly with price := .val (jsNumber 200 1), discount := .val (jsNumber 10 1) }
      [] exampleCatalog).2 =
      ⟨200, .product { exampleRunner with
        title := some "New title", price := some (jsNumber 200 1),
        discount := some (jsNumber 10 1), totalprice := some (jsNumber 180 1) }⟩ := by
  decide

/-! ## Product deletion -/

/-- Claim C5.  Let `id` parse to the identifier of a stored product whose category
title is the title of a category record, in a catalog whose product identifiers are
unique.  The delete is answered 200.  The first category with that title keeps its
position and its other fields, and its product list becomes the previous list
without the entries that denote the identifier, the other entries in their order
(when the entries are identifiers in canonical form: the list without the entries
equal to the identifier).  The other categories and the other products are unchanged
and no product with the identifier remains. -/
theorem delete_removes_from_category (env : Env) (id oid : String) (store : Catalog)
    (product : Product)
    (hid : env.objectId id = some oid)
    (hnodup : (store.products.map (fun p => p._id)).Nodup)
    (hmem : product ∈ store.products) (hpid : product._id = oid)
    (hcat : ∃ c ∈ store.categories, some c.title = product.category) :
    ∃ before after pre c post,
      store.products = before ++ product :: after ∧
      store.categories = pre ++ c :: post ∧
      (∀ d ∈ pre, some d.title ≠ product.category) ∧ some c.title = product.category ∧
      deleteProduct env id store =
        (⟨before ++ after,
          pre ++ { c with products :=
                    c.products.filter (fun s => decide (env.objectId s ≠ some oid)) } :: post⟩,
         ⟨200, .message "Product deleted"⟩) ∧
      (∀ q ∈ before ++ after, q._id ≠ oid) ∧
      ((∀ s ∈ c.products, env.objectId s = some s) →
        c.products.filter (fun s => decide (env.objectId s ≠ some oid)) =
          c.products.filter (fun s => decide (s ≠ oid))) := by
  subst hpid
  have hfind := find?_of_mem_nodup store.products product hnodup hmem
  obtain ⟨before, after, hl, hbefore, hx⟩ := find?_split _ _ _ hfind
  have hcsome : (store.categories.find? (hasTitle product.category)).isSome = true := by
    rw [List.find?_isSome]
    obtain ⟨c, hc, ht⟩ := hcat
    exact ⟨c, hc, by simp [hasTitle, ht]⟩
  obtain ⟨c, hc⟩ := Option.isSome_iff_exists.mp hcsome
  obtain ⟨pre, post, hcl, hpre, hcx⟩ := find?_split _ _ _ hc
  have htitle : some c.title = product.category := by
    have := hcx
    simp only [hasTitle, beq_iff_eq] at this
    exact this.symm
  refine ⟨before, after, pre, c, post, hl, hcl, ?_, htitle, ?_, ?_, ?_⟩
  · intro d hd heq
    have := hpre d hd
    simp [hasTitle, heq] at this
  · unfold deleteProduct
    simp only [hid, hfind]
    rw [hcl, updateFirst_split _ _ pre post c hpre hcx]
    have herase : store.products.eraseP (fun p => p._id == product._id) = before ++ after := by
      rw [hl]
      exact eraseP_split _ before after product hbefore hx
    rw [herase]
    have hfilter : (fun productId => !oidEquals env product._id productId) =
        (fun s => decide (env.objectId s ≠ some product._id)) := by
      funext s
      by_cases hs : env.objectId s = some product._id <;> simp [oidEquals, hs]
    rw [hfilter]
  · intro q hq
    rw [hl] at hnodup
    simp only [List.map_append, List.map_cons] at hnodup
    have hnot : product._id ∉ before.map (fun p => p._id) ++ after.map (fun p => p._id) := by
      have h1 := List.nodup_append.mp hnodup
      have h2 := List.nodup_cons.mp h1.2.1
      intro hin
      rcases List.mem_append.mp hin with hin | hin
      · exact h1.2.2 hin (List.mem_cons_self _ _)
      · exact h2.1 hin
    intro heq
    apply hnot
    rw [← heq, ← List.map_append]
    exact List.mem_map_of_mem _ hq
  · intro hcanon
    apply List.filter_congr
    intro s hs
    simp [hcanon s hs]

/-- Witness of claim C5: deleting the product `p1` of the example catalog, whose
category `Shoes` lists `p1` and `p2`, leaves the product `p2` and the list `p2`. -/
theorem delete_removes_from_category_witness :
    ∃ before after pre c post,
      exampleCatalog.products = before ++ exampleRunner :: after ∧
      exampleCatalog.categories = pre ++ c :: post ∧
      (∀ d ∈ pre, some d.title ≠ exampleRunner.category) ∧
      some c.title = exampleRunner.category ∧
      deleteProduct exampleEnv "p1" exampleCatalog =
        (⟨before ++ after,
          pre ++ { c with products :=
                    c.products.filter (fun s => decide (exampleEnv.objectId s ≠ some "p1")) }
            :: post⟩,
         ⟨200, .message "Product deleted"⟩) ∧
      (∀ q ∈ before ++ after, q._id ≠ "p1") ∧
      ((∀ s ∈ c.products, exampleEnv.objectId s = some s) →
        c.products.filter (fun s => decide (exampleEnv.objectId s ≠ some "p1")) =
          c.products.filter (fun s => decide (s ≠ "p1"))) :=
  delete_removes_from_category exampleEnv "p1" "p1" exampleCatalog exampleRunner
    (by decide) (by decide) (List.mem_cons_self _ _) rfl
    ⟨exampleShoes, List.mem_cons_self _ _, rfl⟩

/-- The delete of the example: the catalog after deleting `p1`. -/
theorem exampleDelete :
    deleteProduct exampleEnv "p1" exampleCatalog =
      (⟨[exampleBoot], [{ exampleShoes with products := ["p2"] }]⟩,
       ⟨200, .message "Product deleted"⟩) := by
  decide

/-! ## Login failures -/

theorem findUserByEmail_eq_none (users : List User) (email : String) :
    findUserByEmail users email = none ↔ ∀ u ∈ users, u.email ≠ email := by
  simp [findUserByEmail, List.find?_eq_none]

/-- Claim C9, amended.  A login with an email and a password that are not empty is
answered 401 with the error `User not found` when no user record has the email, and
401 with the error `Incorrect password` when the record with the email has a hash the
password does not match; in both cases the store is unchanged and the body carries
no token. -/
theorem login_failures (env : Env) (body : LoginBody) (users : List User)
    (email password : String)
    (he : body.email = some email) (hene : email ≠ "")
    (hp : body.password = some password) (hpne : password ≠ "") :
    ((∀ u ∈ users, u.email ≠ email) →
      login env body users = (users, ⟨401, errorBody "User not found"⟩) ∧
      (login env body users).2.body.hasKey "token" = false) ∧
    (∀ user, findUserByEmail users email = some user →
      env.compare password user.password = false →
      login env body users = (users, ⟨401, errorBody "Incorrect password"⟩) ∧
      (login env body users).2.body.hasKey "token" = false) := by
  constructor
  · intro hnone
    have hfind := (findUserByEmail_eq_none users email).mpr hnone
    have heq : login env body users = (users, ⟨401, errorBody "User not found"⟩) := by
      simp [login, he, hp, hene, hpne, hfind]
    refine ⟨heq, ?_⟩
    rw [heq]
    simp [errorBody, Json.hasKey, Json.hasKeyFields]
  · intro user hfind hc
    have heq : login env body users = (users, ⟨401, errorBody "Incorrect password"⟩) := by
      simp [login, he, hp, hene, hpne, hfind, hc]
    refine ⟨heq, ?_⟩
    rw [heq]
    simp [errorBody, Json.hasKey, Json.hasKeyFields]

/-- Witness of claim C9: an unknown email and a wrong password on the example store. -/
theorem login_failures_witness :
    login exampleEnv ⟨some "eve@example.com", some "pw"⟩ exampleUsers =
      (exampleUsers, ⟨401, errorBody "User not found"⟩) ∧
    login exampleEnv ⟨some "ann@example.com", some "wrong"⟩ exampleUsers =
      (exampleUsers, ⟨401, errorBody "Incorrect password"⟩) :=
  ⟨((login_failures exampleEnv ⟨some "eve@example.com", some "pw"⟩ exampleUsers
      "eve@example.com" "pw" rfl (by decide) rfl (by decide)).1 (by decide)).1,
   ((login_failures exampleEnv ⟨some "ann@example.com", some "wrong"⟩ exampleUsers
      "ann@example.com" "wrong" rfl (by decide) rfl (by decide)).2 exampleAnn
      (by decide) (by decide)).1⟩

/-- Counterexample to claim C9 as stated: the login with an email that no user record
has is answered 401, not 404. -/
theorem login_unknown_email_status :
    (∀ u ∈ exampleUsers, u.email ≠ "eve@example.com") ∧
    (login exampleEnv ⟨some "eve@example.com", some "pw"⟩ exampleUsers).2.status = 401 ∧
    (login exampleEnv ⟨some "eve@example.com", some "pw"⟩ exampleUsers).2.status ≠ 404 := by
  decide

/-! ## The upload filter -/

/-- The filter accepts exactly when one of the four words occurs in the MIME type and
in the extension in lower case; otherwise it rejects with the error message. -/
theorem fileFilter_spec (file : UploadFile) :
    (fileFilter file = .ok true ↔
      (allowedTypesTest file.mimetype = true ∧
        allowedTypesTest (toLowerCase (extname file.originalname)) = true)) ∧
    (fileFilter file ≠ .ok true → fileFilter file = .error "Error: Only images are allowed") := by
  unfold fileFilter
  cases allowedTypesTest file.mimetype <;>
    cases allowedTypesTest (toLowerCase (extname file.originalname)) <;> simp

/-- Claim C10, the code at the failing inputs.  A file named `notes.pngx`, whose
extension `.pngx` is none of the four, is accepted with the MIME type `image/png`, and
a file named `photo.png` is accepted with the MIME type `text/x-png`, which is no
image type; the file `notes.txt` of the claim is rejected. -/
theorem fileFilter_accepts_other_types :
    extname "notes.pngx" = ".pngx" ∧
    fileFilter ⟨"notes.pngx", "image/png"⟩ = .ok true ∧
    fileFilter ⟨"photo.png", "text/x-png"⟩ = .ok true ∧
    fileFilter ⟨"notes.txt", "text/plain"⟩ = .error "Error: Only images are allowed" :=
  ⟨by decide, rfl, rfl, rfl⟩

/-! ## Email uniqueness -/

theorem protect_store (env : Env) (authorization : Option String)
    (handler : String → List User → List User × Response) (users : List User)
    (P : List User → Prop) (hP : P users) (h : ∀ user, P (handler user users).1) :
    P (protect env authorization handler users).1 := by
  unfold protect
  cases auth env.jwt env.config authorization with
  | respond r => exact hP
  | next user => exact h user

theorem replaceUser_emails (users : List User) (u u' : User)
    (hfind : users.find? (fun v => v._id == u'._id) = some u) (hemail : u'.email = u.email) :
    (replaceUser users u').map (fun v => v.email) = users.map (fun v => v.email) := by
  obtain ⟨pre, post, hl, hpre, hx⟩ := find?_split _ _ _ hfind
  unfold replaceUser
  rw [hl, updateFirst_split _ _ pre post u hpre hx]
  simp [hemail]

theorem replaceUser_ids (users : List User) (u u' : User)
    (hfind : users.find? (fun v => v._id == u'._id) = some u) :
    (replaceUser users u').map (fun v => v._id) = users.map (fun v => v._id) := by
  obtain ⟨pre, post, hl, hpre, hx⟩ := find?_split _ _ _ hfind
  have hid : u._id = u'._id := by simpa using hx
  unfold replaceUser
  rw [hl, updateFirst_split _ _ pre post u hpre hx]
  simp [hid]

theorem insertUser_keeps (users stored : List User) (u : User)
    (h : insertUser users u = some stored) (hids : IdsUnique users)
    (hunique : EmailsUnique users) : IdsUnique stored ∧ EmailsUnique stored := by
  have hstored := insertUser_some _ _ _ h
  unfold insertUser at h
  split at h
  · simp at h
  · rename_i hid
    split at h
    · simp at h
    · rename_i hemail
      subst hstored
      unfold IdsUnique EmailsUnique at *
      simp only [List.map_append, List.map_cons, List.map_nil]
      constructor
      · rw [List.nodup_append]
        refine ⟨hids, by simp, ?_⟩
        intro a ha hb
        simp only [List.mem_singleton] at hb
        obtain ⟨v, hv, hva⟩ := List.mem_map.mp ha
        apply hid
        simp only [List.any_eq_true, beq_iff_eq]
        exact ⟨v, hv, hva.trans hb⟩
      · rw [List.nodup_append]
        refine ⟨hunique, by simp, ?_⟩
        intro a ha hb
        simp only [List.mem_singleton] at hb
        obtain ⟨v, hv, hva⟩ := List.mem_map.mp ha
        apply hemail
        simp only [List.any_eq_true, beq_iff_eq]
        exact ⟨v, hv, hva.trans hb⟩

theorem register_keeps (env : Env) (newId : String) (body : RegisterBody)
    (users : List User) (hids : IdsUnique users) (hunique : EmailsUnique users) :
    IdsUnique (register env newId body users).1 ∧
      EmailsUnique (register env newId body users).1 := by
  cases hu : body.username with
  | none => simpa [register, hu] using And.intro hids hunique
  | some username =>
    cases he : body.email with
    | none => simpa [register, hu, he] using And.intro hids hunique
    | some email =>
      cases hp : body.password with
      | none => simpa [register, hu, he, hp] using And.intro hids hunique
      | some password =>
        by_cases hfields : username = "" ∨ email = "" ∨ password = ""
        · simpa [register, hu, he, hp, hfields] using And.intro hids hunique
        · cases hfind : findUserByEmail users email with
          | some existing =>
            simpa [register, hu, he, hp, hfields, hfind] using And.intro hids hunique
          | none =>
            cases hins : insertUser users
                { _id := newId, username := username, email := email,
                  password := env.hash password, role := env.userSchema.defaultRole,
                  profilePicture := none } with
            | none =>
              simpa [register, hu, he, hp, hfields, hfind, hins] using And.intro hids hunique
            | some stored =>
              have hnew := insertUser_keeps _ _ _ hins hids hunique
              cases hsign : signToken env { id := newId, role := none } with
              | none => simpa [register, hu, he, hp, hfields, hfind, hins, hsign] using hnew
              | some token =>
                simpa [register, hu, he, hp, hfields, hfind, hins, hsign] using hnew

theorem updateHandler_keeps (env : Env) (body : UpdateBody) (user : String)
    (users : List User) (hids : IdsUnique users) (hunique : EmailsUnique users) :
    IdsUnique (updateHandler env body user users).1 ∧
      EmailsUnique (updateHandler env body user users).1 := by
  unfold updateHandler
  cases env.objectId user with
  | none => exact ⟨hids, hunique⟩
  | some oid =>
    simp only
    cases hfind : findUserById users oid with
    | none => exact ⟨hids, hunique⟩
    | some u =>
      simp only
      have hid : u._id = oid := by simpa using List.find?_some hfind
      split
      · exact ⟨hids, hunique⟩
      · rename_i hok
        have hfind' : users.find? (fun v => v._id == u._id) = some u := by
          simpa [findUserById, hid] using hfind
        refine ⟨?_, ?_⟩
        · unfold IdsUnique
          have hmap := replaceUser_ids users u
            { u with username := body.username.getD u.username,
                     email := body.email.getD u.email } hfind'
          exact hmap ▸ hids
        obtain ⟨pre, post, hl, hpre, hx⟩ := find?_split _ _ _ hfind
        unfold replaceUser
        rw [hl, updateFirst_split _ _ pre post u (by simpa [hid] using hpre) (by simp)]
        unfold EmailsUnique IdsUnique at *
        by_cases hsame : body.email.getD u.email = u.email
        · simpa [hl, hsame] using hunique
        · have hno : ∀ v ∈ users, v._id ≠ u._id → v.email ≠ body.email.getD u.email := by
            intro v hv hvid hve
            apply hok
            simp only [Bool.and_eq_true, bne_iff_ne, ne_eq, List.any_eq_true, beq_iff_eq]
            exact ⟨hsame, v, hv, hvid, hve⟩
          rw [hl] at hids hunique hno
          simp only [List.map_append, List.map_cons] at hids hunique ⊢
          have hi := List.nodup_append.mp hids
          have hi2 := List.nodup_cons.mp hi.2.1
          have hu := List.nodup_append.mp hunique
          have hu2 := List.nodup_cons.mp hu.2.1
          have hpre_ne : ∀ v ∈ pre, v._id ≠ u._id := by
            intro v hv heq
            exact hi.2.2 (List.mem_map_of_mem (fun v => v._id) hv)
              (by rw [heq]; exact List.mem_cons_self _ _)
          have hpost_ne : ∀ v ∈ post, v._id ≠ u._id := by
            intro v hv heq
            exact hi2.1 (by rw [← heq]; exact List.mem_map_of_mem (fun v => v._id) hv)
          rw [List.nodup_append]
          refine ⟨hu.1, ?_, ?_⟩
          · rw [List.nodup_cons]
            refine ⟨?_, hu2.2⟩
            intro hin
            obtain ⟨v, hv, hve⟩ := List.mem_map.mp hin
            exact hno v (by simp [hv]) (hpost_ne v hv) hve
          · intro a ha hb
            rcases List.mem_cons.mp hb with rfl | hb
            · obtain ⟨v, hv, hve⟩ := List.mem_map.mp ha
              exact hno v (by simp [hv]) (hpre_ne v hv) hve
            · exact hu.2.2 ha (List.mem_cons_of_mem _ hb)

theorem changePasswordHandler_keeps (env : Env) (body : ChangePasswordBody) (user : String)
    (users : List User) :
    (changePasswordHandler env body user users).1.map (fun v => v._id) =
      users.map (fun v => v._id) ∧
    (changePasswordHandler env body user users).1.map (fun v => v.email) =
      users.map (fun v => v.email) := by
  unfold changePasswordHandler
  cases env.objectId user with
  | none => exact ⟨rfl, rfl⟩
  | some oid =>
    simp only
    cases hfind : findUserById users oid with
    | none => exact ⟨rfl, rfl⟩
    | some u =>
      simp only
      cases body.currentPassword with
      | none => exact ⟨rfl, rfl⟩
      | some current =>
        simp only
        split
        · cases body.newPassword with
          | none => exact ⟨rfl, rfl⟩
          | some newPassword =>
            simp only
            have hid : u._id = oid := by simpa using List.find?_some hfind
            have hfind' : users.find? (fun v => v._id == u._id) = some u := by
              simpa [findUserById, hid] using hfind
            exact ⟨replaceUser_ids users u _ hfind', replaceUser_emails users u _ hfind' rfl⟩
        · exact ⟨rfl, rfl⟩

theorem uploadProfilePictureHandler_keeps (env : Env) (file : Option String) (user : String)
    (users : List User) :
    (uploadProfilePictureHandler env file user users).1.map (fun v => v._id) =
      users.map (fun v => v._id) ∧
    (uploadProfilePictureHandler env file user users).1.map (fun v => v.email) =
      users.map (fun v => v.email) := by
  unfold uploadProfilePictureHandler
  cases env.objectId user with
  | none => exact ⟨rfl, rfl⟩
  | some oid =>
    simp only
    cases hfind : findUserById users oid with
    | none => cases file <;> exact ⟨rfl, rfl⟩
    | some u =>
      cases file with
      | none => exact ⟨rfl, rfl⟩
      | some path =>
        simp only
        have hid : u._id = oid := by simpa using List.find?_some hfind
        have hfind' : users.find? (fun v => v._id == u._id) = some u := by
          simpa [findUserById, hid] using hfind
        exact ⟨replaceUser_ids users u _ hfind', replaceUser_emails users u _ hfind' rfl⟩

theorem login_store (env : Env) (body : LoginBody) (users : List User) :
    (login env body users).1 = users := by
  unfold login
  repeat' split
  all_goals rfl

theorem profileHandler_store (env : Env) (user : String) (users : List User) :
    (profileHandler env user users).1 = users := by
  unfold profileHandler
  repeat' split
  all_goals rfl

/-- Claim C6.  In a store whose identifiers are unique (the primary key) and in which
no two user records share an email, every request to the User Service (register,
update-profile, change-password, upload-profile-picture, and login and get-profile,
which do not write) leaves a store with unique identifiers in which no two user
records share an email; and a register request with fields that are not empty whose
email belongs to a user record is answered 400 `User already exists` with the store
unchanged. -/
theorem user_writes_keep_emails_unique (env : Env) :
    (∀ req users, IdsUnique users → EmailsUnique users →
      IdsUnique (userService env req users).1 ∧
        EmailsUnique (userService env req users).1) ∧
    (∀ newId body users username email password,
      body.username = some username → username ≠ "" →
      body.email = some email → email ≠ "" →
      body.password = some password → password ≠ "" →
      (∃ u ∈ users, u.email = email) →
      register env newId body users = (users, ⟨400, errorBody "User already exists"⟩)) := by
  constructor
  · intro req users hids hunique
    cases req with
    | register newId body => exact register_keeps env newId body users hids hunique
    | login body =>
      simp only [userService, login_store]
      exact ⟨hids, hunique⟩
    | profile authorization =>
      apply protect_store env authorization _ users
        (fun l => IdsUnique l ∧ EmailsUnique l) ⟨hids, hunique⟩
      intro user
      rw [profileHandler_store]
      exact ⟨hids, hunique⟩
    | update authorization body =>
      apply protect_store env authorization _ users
        (fun l => IdsUnique l ∧ EmailsUnique l) ⟨hids, hunique⟩
      intro user
      exact updateHandler_keeps env body user users hids hunique
    | changePassword authorization body =>
      apply protect_store env authorization _ users
        (fun l => IdsUnique l ∧ EmailsUnique l) ⟨hids, hunique⟩
      intro user
      obtain ⟨h1, h2⟩ := changePasswordHandler_keeps env body user users
      unfold IdsUnique EmailsUnique at *
      exact ⟨by rw [h1]; exact hids, by rw [h2]; exact hunique⟩
    | uploadProfilePicture authorization file =>
      apply protect_store env authorization _ users
        (fun l => IdsUnique l ∧ EmailsUnique l) ⟨hids, hunique⟩
      intro user
      obtain ⟨h1, h2⟩ := uploadProfilePictureHandler_keeps env file user users
      unfold IdsUnique EmailsUnique at *
      exact ⟨by rw [h1]; exact hids, by rw [h2]; exact hunique⟩
  · intro newId body users username email password hu hune he hene hp hpne hex
    have hsome : (findUserByEmail users email).isSome = true := by
      unfold findUserByEmail
      rw [List.find?_isSome]
      obtain ⟨u, hmem, hmail⟩ := hex
      exact ⟨u, hmem, by simp [hmail]⟩
    obtain ⟨existing, hfind⟩ := Option.isSome_iff_exists.mp hsome
    simp [register, hu, he, hp, hune, hene, hpne, hfind]

theorem exampleAuthBob :
    auth exampleEnv.jwt exampleEnv.config (some "Bearer tok:u2") = .next "u2" :=
  auth_bearer exampleJwt exampleEnv.config "tok:u2" ⟨"u2", none⟩ (by decide) (by decide)

/-- The update of the second example user to the email of the first is rejected by
the store: it is answered 500 and the store is unchanged. -/
theorem exampleUpdateConflict :
    userService exampleEnv (.update (some "Bearer tok:u2") ⟨none, some "ann@example.com"⟩)
      exampleTwoUsers = (exampleTwoUsers, ⟨500, msgBody "Internal server error"⟩) := by
  have hlen : "u2".length = 2 := by decide
  simp only [userService, protect, exampleAuthBob]
  simp [updateHandler, exampleEnv, hlen, findUserById, exampleTwoUsers, exampleAnn,
    exampleBob]

/-- Witness of claim C6: after the update of the second example user to the email of
the first, and after a second register with the email of the first, the emails of
the example store are unique; the register is answered 400. -/
theorem user_writes_keep_emails_unique_witness :
    IdsUnique exampleTwoUsers ∧ EmailsUnique exampleTwoUsers ∧
    EmailsUnique (userService exampleEnv
      (.update (some "Bearer tok:u2") ⟨none, some "ann@example.com"⟩) exampleTwoUsers).1 ∧
    register exampleEnv "u3" ⟨some "eve", some "ann@example.com", some "pw3"⟩ exampleTwoUsers
      = (exampleTwoUsers, ⟨400, errorBody "User already exists"⟩) :=
  ⟨by decide, by decide,
   ((user_writes_keep_emails_unique exampleEnv).1 _ exampleTwoUsers (by decide)
      (by decide)).2,
   (user_writes_keep_emails_unique exampleEnv).2 "u3"
      ⟨some "eve", some "ann@example.com", some "pw3"⟩ exampleTwoUsers "eve"
      "ann@example.com" "pw3" rfl (by decide) rfl (by decide) rfl (by decide)
      ⟨exampleAnn, List.mem_cons_self _ _, rfl⟩⟩

/-! ## The password in responses -/

theorem errorBody_no_password (msg : String) : (errorBody msg).hasKey "password" = false := by
  simp [errorBody, Json.hasKey, Json.hasKeyFields]

theorem msgBody_no_password (msg : String) : (msgBody msg).hasKey "password" = false := by
  simp [msgBody, Json.hasKey, Json.hasKeyFields]

theorem userWithoutPassword_eq (u : User) :
    userWithoutPassword u =
      .obj ([("_id", .str u._id), ("username", .str u.username), ("email", .str u.email),
        ("role", .str u.role)] ++
        (match u.profilePicture with
         | some p => [("profilePicture", .str p)]
         | none => [])) := by
  unfold userWithoutPassword userFields
  cases u.profilePicture <;> simp [List.filter]

theorem userWithoutPassword_no_password (u : User) :
    (userWithoutPassword u).hasKey "password" = false := by
  rw [userWithoutPassword_eq]
  cases u.profilePicture <;> simp [Json.hasKey, Json.hasKeyFields]

theorem userWithoutPassword_erase (u : User) :
    userWithoutPassword { u with password := "" } = userWithoutPassword u := by
  rw [userWithoutPassword_eq, userWithoutPassword_eq]

theorem register_no_password (env : Env) (newId : String) (body : RegisterBody)
    (users : List User) : (register env newId body users).2.body.hasKey "password" = false := by
  cases hu : body.username with
  | none => simp [register, hu, errorBody, Json.hasKey, Json.hasKeyFields]
  | some username =>
    cases he : body.email with
    | none => simp [register, hu, he, errorBody, Json.hasKey, Json.hasKeyFields]
    | some email =>
      cases hp : body.password with
      | none => simp [register, hu, he, hp, errorBody, Json.hasKey, Json.hasKeyFields]
      | some password =>
        by_cases hfields : username = "" ∨ email = "" ∨ password = ""
        · simp [register, hu, he, hp, hfields, errorBody, Json.hasKey, Json.hasKeyFields]
        · cases hfind : findUserByEmail users email with
          | some existing =>
            simp [register, hu, he, hp, hfields, hfind, errorBody, Json.hasKey,
              Json.hasKeyFields]
          | none =>
            cases hins : insertUser users
                { _id := newId, username := username, email := email,
                  password := env.hash password, role := env.userSchema.defaultRole,
                  profilePicture := none } with
            | none =>
              simp [register, hu, he, hp, hfields, hfind, hins, errorBody, Json.hasKey,
                Json.hasKeyFields]
            | some stored =>
              cases hsign : signToken env { id := newId, role := none } with
              | none =>
                simp [register, hu, he, hp, hfields, hfind, hins, hsign, errorBody, Json.hasKey,
                  Json.hasKeyFields]
              | some token =>
                simp [register, hu, he, hp, hfields, hfind, hins, hsign, Json.hasKey,
                  Json.hasKeyFields]

theorem login_no_password (env : Env) (body : LoginBody) (users : List User) :
    (login env body users).2.body.hasKey "password" = false := by
  cases he : body.email with
  | none => simp [login, he, errorBody, Json.hasKey, Json.hasKeyFields]
  | some email =>
    cases hp : body.password with
    | none => simp [login, he, hp, errorBody, Json.hasKey, Json.hasKeyFields]
    | some password =>
      by_cases hfields : email = "" ∨ password = ""
      · simp [login, he, hp, hfields, errorBody, Json.hasKey, Json.hasKeyFields]
      · cases hfind : findUserByEmail users email with
        | none => simp [login, he, hp, hfields, hfind, errorBody, Json.hasKey, Json.hasKeyFields]
        | some user =>
          by_cases hc : env.compare password user.password = true
          · cases hsign : signToken env { id := user._id, role := some user.role } with
            | none =>
              simp [login, he, hp, hfields, hfind, hc, hsign, errorBody, Json.hasKey,
                Json.hasKeyFields]
            | some token =>
              simp [login, he, hp, hfields, hfind, hc, hsign, Json.hasKey, Json.hasKeyFields]
          · simp [login, he, hp, hfields, hfind, hc, errorBody, Json.hasKey, Json.hasKeyFields]

theorem auth_respond_no_password (jwt : Jwt) (config : Config) (authorization : Option String)
    (r : Response) (h : auth jwt config authorization = .respond r) :
    r.body.hasKey "password" = false := by
  unfold auth at h
  cases ht : extractToken authorization with
  | none =>
    simp only [ht] at h
    cases h
    simp [Json.hasKey, Json.hasKeyFields]
  | some token =>
    simp only [ht] at h
    by_cases hne : token = ""
    · simp only [hne, if_true] at h
      cases h
      simp [Json.hasKey, Json.hasKeyFields]
    · simp only [hne, if_false] at h
      cases hv : verifyToken jwt config token with
      | none =>
        simp only [hv] at h
        cases h
        simp [Json.hasKey, Json.hasKeyFields]
      | some decoded => simp [hv] at h

theorem protect_response (env : Env) (authorization : Option String)
    (handler : String → List User → List User × Response) (users : List User)
    (h : ∀ user, (handler user users).2.body.hasKey "password" = false) :
    (protect env authorization handler users).2.body.hasKey "password" = false := by
  unfold protect
  cases ha : auth env.jwt env.config authorization with
  | respond r => exact auth_respond_no_password _ _ _ r ha
  | next user => exact h user

theorem user_body_no_password (u : User) :
    (Json.obj [("user", userWithoutPassword u)]).hasKey "password" = false := by
  rw [userWithoutPassword_eq]
  cases u.profilePicture <;> simp [Json.hasKey, Json.hasKeyFields]

theorem handlers_no_password (env : Env) (user : String) (users : List User) :
    (profileHandler env user users).2.body.hasKey "password" = false ∧
    (∀ body, (updateHandler env body user users).2.body.hasKey "password" = false) ∧
    (∀ body, (changePasswordHandler env body user users).2.body.hasKey "password" = false) ∧
    (∀ file, (uploadProfilePictureHandler env file user users).2.body.hasKey "password"
      = false) := by
  refine ⟨?_, ?_, ?_, ?_⟩
  · cases hid : env.objectId user with
    | none => simp [profileHandler, hid, msgBody, Json.hasKey, Json.hasKeyFields]
    | some oid =>
      cases hfind : findUserById users oid with
      | none => simp [profileHandler, hid, hfind, msgBody, Json.hasKey, Json.hasKeyFields]
      | some u =>
        simp only [profileHandler, hid, hfind]
        exact user_body_no_password u
  · intro body
    cases hid : env.objectId user with
    | none => simp [updateHandler, hid, msgBody, Json.hasKey, Json.hasKeyFields]
    | some oid =>
      cases hfind : findUserById users oid with
      | none => simp [updateHandler, hid, hfind, msgBody, Json.hasKey, Json.hasKeyFields]
      | some u =>
        simp only [updateHandler, hid, hfind]
        split
        · simp [msgBody, Json.hasKey, Json.hasKeyFields]
        · exact user_body_no_password _
  · intro body
    cases hid : env.objectId user with
    | none => simp [changePasswordHandler, hid, msgBody, Json.hasKey, Json.hasKeyFields]
    | some oid =>
      cases hfind : findUserById users oid with
      | none =>
        simp [changePasswordHandler, hid, hfind, msgBody, Json.hasKey, Json.hasKeyFields]
      | some u =>
        cases hcur : body.currentPassword with
        | none =>
          simp [changePasswordHandler, hid, hfind, hcur, msgBody, Json.hasKey,
            Json.hasKeyFields]
        | some current =>
          by_cases hc : env.compare current u.password = true
          · cases hnew : body.newPassword with
            | none =>
              simp [changePasswordHandler, hid, hfind, hcur, hc, hnew, msgBody, Json.hasKey,
                Json.hasKeyFields]
            | some newPassword =>
              simp [changePasswordHandler, hid, hfind, hcur, hc, hnew, Json.hasKey]
          · simp [changePasswordHandler, hid, hfind, hcur, hc, msgBody, Json.hasKey,
              Json.hasKeyFields]
  · intro file
    cases hid : env.objectId user with
    | none => simp [uploadProfilePictureHandler, hid, msgBody, Json.hasKey, Json.hasKeyFields]
    | some oid =>
      cases hfind : findUserById users oid <;> cases file <;>
        simp [uploadProfilePictureHandler, hid, hfind, msgBody, Json.hasKey, Json.hasKeyFields]

theorem findUserById_erase (users : List User) (oid : String) :
    findUserById (erasePasswords users) oid =
      (findUserById users oid).map (fun u => { u with password := "" }) := by
  unfold findUserById erasePasswords
  rw [List.find?_map]
  rfl

theorem any_erase (users : List User) (f : User → Bool)
    (hf : ∀ u : User, f { u with password := "" } = f u) :
    (erasePasswords users).any f = users.any f := by
  unfold erasePasswords
  induction users with
  | nil => rfl
  | cons u us ih => simp [List.any_cons, hf, ih]

theorem profileHandler_erase (env : Env) (user : String) (users : List User) :
    (profileHandler env user (erasePasswords users)).2 = (profileHandler env user users).2 := by
  unfold profileHandler
  cases env.objectId user with
  | none => rfl
  | some oid =>
    simp only [findUserById_erase]
    cases findUserById users oid with
    | none => rfl
    | some u => simp [userWithoutPassword_erase]

theorem updateHandler_erase (env : Env) (body : UpdateBody) (user : String)
    (users : List User) :
    (updateHandler env body user (erasePasswords users)).2 =
      (updateHandler env body user users).2 := by
  unfold updateHandler
  cases env.objectId user with
  | none => rfl
  | some oid =>
    simp only [findUserById_erase]
    cases findUserById users oid with
    | none => rfl
    | some u =>
      have hany : (erasePasswords users).any
          (fun v => v._id != u._id && v.email == body.email.getD u.email) =
          users.any (fun v => v._id != u._id && v.email == body.email.getD u.email) :=
        any_erase users _ (fun _ => rfl)
      have hjson := userWithoutPassword_erase
        { u with username := body.username.getD u.username, email := body.email.getD u.email }
      simp only [Option.map_some', hany]
      split
      · rfl
      · exact congrArg (fun j => (⟨200, .obj [("user", j)]⟩ : Response)) hjson

theorem protect_erase (env : Env) (authorization : Option String)
    (handler : String → List User → List User × Response) (users : List User)
    (h : ∀ user, (handler user (erasePasswords users)).2 = (handler user users).2) :
    (protect env authorization handler (erasePasswords users)).2 =
      (protect env authorization handler users).2 := by
  unfold protect
  cases auth env.jwt env.config authorization with
  | respond r => rfl
  | next user => exact h user

theorem findUserByEmail_relabel (f : String → String) (users : List User) (email : String) :
    findUserByEmail (relabelHashes f users) email =
      (findUserByEmail users email).map (fun u => { u with password := f u.password }) := by
  unfold findUserByEmail relabelHashes
  rw [List.find?_map]
  rfl

theorem findUserById_relabel (f : String → String) (users : List User) (oid : String) :
    findUserById (relabelHashes f users) oid =
      (findUserById users oid).map (fun u => { u with password := f u.password }) := by
  unfold findUserById relabelHashes
  rw [List.find?_map]
  rfl

theorem any_relabel (f : String → String) (users : List User) (p : User → Bool)
    (hp : ∀ u : User, p { u with password := f u.password } = p u) :
    (relabelHashes f users).any p = users.any p := by
  unfold relabelHashes
  induction users with
  | nil => rfl
  | cons u us ih => simp [List.any_cons, hp, ih]

theorem insertUser_relabel (f : String → String) (users : List User) (u : User) :
    (insertUser (relabelHashes f users) { u with password := f u.password }).isSome =
      (insertUser users u).isSome := by
  have h1 : (relabelHashes f users).any (fun v => v._id == u._id) =
      users.any (fun v => v._id == u._id) := any_relabel f users _ (fun _ => rfl)
  have h2 : (relabelHashes f users).any (fun v => v.email == u.email) =
      users.any (fun v => v.email == u.email) := any_relabel f users _ (fun _ => rfl)
  unfold insertUser
  simp only [h1, h2]
  split
  · rfl
  · split <;> rfl

theorem userWithoutPassword_relabel (f : String → String) (u : User) :
    userWithoutPassword { u with password := f u.password } = userWithoutPassword u := by
  rw [userWithoutPassword_eq, userWithoutPassword_eq]

theorem signToken_relabel (f g : String → String) (env : Env) (payload : Payload) :
    signToken (relabelEnv f g env) payload = signToken env payload := rfl

theorem register_relabel (f g : String → String) (env : Env) (newId : String)
    (body : RegisterBody) (users : List User) :
    (register (relabelEnv f g env) newId body (relabelHashes f users)).2 =
      (register env newId body users).2 := by
  cases hu : body.username with
  | none => simp [register, hu]
  | some username =>
    cases he : body.email with
    | none => simp [register, hu, he]
    | some email =>
      cases hp : body.password with
      | none => simp [register, hu, he, hp]
      | some password =>
        by_cases hfields : username = "" ∨ email = "" ∨ password = ""
        · simp [register, hu, he, hp, hfields]
        · have hhash : (relabelEnv f g env).hash password = f (env.hash password) := rfl
          have hschema : (relabelEnv f g env).userSchema = env.userSchema := rfl
          have hins := insertUser_relabel f users
            { _id := newId, username := username, email := email,
              password := env.hash password, role := env.userSchema.defaultRole,
              profilePicture := none }
          cases hfind : findUserByEmail users email with
          | some existing =>
            simp [register, hu, he, hp, hfields, findUserByEmail_relabel, hfind]
          | none =>
            cases h1 : insertUser users
                { _id := newId, username := username, email := email,
                  password := env.hash password, role := env.userSchema.defaultRole,
                  profilePicture := none } with
            | none =>
              rw [h1] at hins
              cases h2 : insertUser (relabelHashes f users)
                  { _id := newId, username := username, email := email,
                    password := f (env.hash password), role := env.userSchema.defaultRole,
                    profilePicture := none } with
              | none =>
                simp [register, hu, he, hp, hfields, findUserByEmail_relabel, hfind, h1, h2,
                  hhash, hschema]
              | some stored => simp [h2] at hins
            | some stored =>
              rw [h1] at hins
              cases h2 : insertUser (relabelHashes f users)
                  { _id := newId, username := username, email := email,
                    password := f (env.hash password), role := env.userSchema.defaultRole,
                    profilePicture := none } with
              | none => simp [h2] at hins
              | some stored2 =>
                have hsign := signToken_relabel f g env { id := newId, role := none }
                cases h3 : signToken env { id := newId, role := none } with
                | none =>
                  rw [h3] at hsign
                  simp [register, hu, he, hp, hfields, findUserByEmail_relabel, hfind, h1, h2,
                    h3, hsign, hhash, hschema]
                | some token =>
                  rw [h3] at hsign
                  simp [register, hu, he, hp, hfields, findUserByEmail_relabel, hfind, h1, h2,
                    h3, hsign, hhash, hschema]

theorem login_relabel (f g : String → String) (hfg : ∀ h, g (f h) = h) (env : Env)
    (body : LoginBody) (users : List User) :
    (login (relabelEnv f g env) body (relabelHashes f users)).2 =
      (login env body users).2 := by
  cases he : body.email with
  | none => simp [login, he]
  | some email =>
    cases hp : body.password with
    | none => simp [login, he, hp]
    | some password =>
      by_cases hfields : email = "" ∨ password = ""
      · simp [login, he, hp, hfields]
      · cases hfind : findUserByEmail users email with
        | none => simp [login, he, hp, hfields, findUserByEmail_relabel, hfind]
        | some user =>
          have hcmp : (relabelEnv f g env).compare password (f user.password) =
              env.compare password user.password := by
            simp [relabelEnv, hfg]
          have hsign := signToken_relabel f g env { id := user._id, role := some user.role }
          by_cases hc : env.compare password user.password = true
          · cases h3 : signToken env { id := user._id, role := some user.role } with
            | none =>
              rw [h3] at hsign
              simp [login, he, hp, hfields, findUserByEmail_relabel, hfind, hcmp, hc, h3,
                hsign]
            | some token =>
              rw [h3] at hsign
              simp [login, he, hp, hfields, findUserByEmail_relabel, hfind, hcmp, hc, h3,
                hsign]
          · simp [login, he, hp, hfields, findUserByEmail_relabel, hfind, hcmp, hc]

theorem protect_relabel (f g : String → String) (env : Env) (authorization : Option String)
    (handler handler' : String → List User → List User × Response) (users : List User)
    (h : ∀ user, (handler' user (relabelHashes f users)).2 = (handler user users).2) :
    (protect (relabelEnv f g env) authorization handler' (relabelHashes f users)).2 =
      (protect env authorization handler users).2 := by
  have hauth : auth (relabelEnv f g env).jwt (relabelEnv f g env).config authorization =
      auth env.jwt env.config authorization := rfl
  unfold protect
  rw [hauth]
  cases auth env.jwt env.config authorization with
  | respond r => rfl
  | next user => exact h user

theorem profileHandler_relabel (f g : String → String) (env : Env) (user : String)
    (users : List User) :
    (profileHandler (relabelEnv f g env) user (relabelHashes f users)).2 =
      (profileHandler env user users).2 := by
  have hoid : (relabelEnv f g env).objectId user = env.objectId user := rfl
  unfold profileHandler
  rw [hoid]
  cases env.objectId user with
  | none => rfl
  | some oid =>
    simp only [findUserById_relabel]
    cases findUserById users oid with
    | none => rfl
    | some u => simp [userWithoutPassword_relabel]

theorem updateHandler_relabel (f g : String → String) (env : Env) (body : UpdateBody)
    (user : String) (users : List User) :
    (updateHandler (relabelEnv f g env) body user (relabelHashes f users)).2 =
      (updateHandler env body user users).2 := by
  have hoid : (relabelEnv f g env).objectId user = env.objectId user := rfl
  unfold updateHandler
  rw [hoid]
  cases env.objectId user with
  | none => rfl
  | some oid =>
    simp only [findUserById_relabel]
    cases findUserById users oid with
    | none => rfl
    | some u =>
      have hany : (relabelHashes f users).any
          (fun v => v._id != u._id && v.email == body.email.getD u.email) =
          users.any (fun v => v._id != u._id && v.email == body.email.getD u.email) :=
        any_relabel f users _ (fun _ => rfl)
      have hjson := userWithoutPassword_relabel f
        { u with username := body.username.getD u.username, email := body.email.getD u.email }
      simp only [Option.map_some', hany]
      split
      · rfl
      · exact congrArg (fun j => (⟨200, .obj [("user", j)]⟩ : Response)) hjson

theorem changePasswordHandler_relabel (f g : String → String) (hfg : ∀ h, g (f h) = h)
    (env : Env) (body : ChangePasswordBody) (user : String) (users : List User) :
    (changePasswordHandler (relabelEnv f g env) body user (relabelHashes f users)).2 =
      (changePasswordHandler env body user users).2 := by
  have hoid : (relabelEnv f g env).objectId user = env.objectId user := rfl
  unfold changePasswordHandler
  rw [hoid]
  cases env.objectId user with
  | none => rfl
  | some oid =>
    simp only [findUserById_relabel]
    cases findUserById users oid with
    | none => rfl
    | some u =>
      simp only [Option.map_some']
      cases body.currentPassword with
      | none => rfl
      | some current =>
        have hcmp : (relabelEnv f g env).compare current (f u.password) =
            env.compare current u.password := by
          simp [relabelEnv, hfg]
        simp only [hcmp]
        split
        · cases body.newPassword with
          | none => rfl
          | some newPassword => rfl
        · rfl

theorem uploadProfilePictureHandler_relabel (f g : String → String) (env : Env)
    (file : Option String) (user : String) (users : List User) :
    (uploadProfilePictureHandler (relabelEnv f g env) file user (relabelHashes f users)).2 =
      (uploadProfilePictureHandler env file user users).2 := by
  have hoid : (relabelEnv f g env).objectId user = env.objectId user := rfl
  unfold uploadProfilePictureHandler
  rw [hoid]
  cases env.objectId user with
  | none => rfl
  | some oid =>
    simp only [findUserById_relabel]
    cases findUserById users oid <;> cases file <;> rfl

/-- Claim C7.  Whatever the store and the request to the User Service (register,
login, get profile, update profile, change password, upload profile picture):
the response has no field named `password`; the response does not change when every
password hash, the stored ones and the ones the request computes, is replaced by
another string (`f h` for `h`, with the comparison of the library following), so no
stored hash is part of a response; and the responses of get-profile and
update-profile are the same on two stores that differ only in the stored hashes. -/
theorem responses_without_password (env : Env) :
    (∀ req users, (userService env req users).2.body.hasKey "password" = false) ∧
    (∀ (f g : String → String), (∀ h, g (f h) = h) → ∀ req users,
      (userService (relabelEnv f g env) req (relabelHashes f users)).2 =
        (userService env req users).2) ∧
    (∀ authorization users₁ users₂, erasePasswords users₁ = erasePasswords users₂ →
      (userService env (.profile authorization) users₁).2 =
        (userService env (.profile authorization) users₂).2) ∧
    (∀ authorization body users₁ users₂, erasePasswords users₁ = erasePasswords users₂ →
      (userService env (.update authorization body) users₁).2 =
        (userService env (.update authorization body) users₂).2) := by
  refine ⟨?_, ?_, ?_, ?_⟩
  · intro req users
    cases req with
    | register newId body => exact register_no_password env newId body users
    | login body => exact login_no_password env body users
    | profile authorization =>
      exact protect_response env authorization _ users
        (fun user => (handlers_no_password env user users).1)
    | update authorization body =>
      exact protect_response env authorization _ users
        (fun user => (handlers_no_password env user users).2.1 body)
    | changePassword authorization body =>
      exact protect_response env authorization _ users
        (fun user => (handlers_no_password env user users).2.2.1 body)
    | uploadProfilePicture authorization file =>
      exact protect_response env authorization _ users
        (fun user => (handlers_no_password env user users).2.2.2 file)
  · intro f g hfg req users
    cases req with
    | register newId body => exact register_relabel f g env newId body users
    | login body => exact login_relabel f g hfg env body users
    | profile authorization =>
      exact protect_relabel f g env authorization _ _ users
        (fun user => profileHandler_relabel f g env user users)
    | update authorization body =>
      exact protect_relabel f g env authorization _ _ users
        (fun user => updateHandler_relabel f g env body user users)
    | changePassword authorization body =>
      exact protect_relabel f g env authorization _ _ users
        (fun user => changePasswordHandler_relabel f g hfg env body user users)
    | uploadProfilePicture authorization file =>
      exact protect_relabel f g env authorization _ _ users
        (fun user => uploadProfilePictureHandler_relabel f g env file user users)
  · intro authorization users₁ users₂ h
    simp only [userService]
    rw [← protect_erase env authorization _ users₁ (fun user => profileHandler_erase env user _),
      ← protect_erase env authorization _ users₂ (fun user => profileHandler_erase env user _),
      h]
  · intro authorization body users₁ users₂ h
    simp only [userService]
    rw [← protect_erase env authorization _ users₁
        (fun user => updateHandler_erase env body user _),
      ← protect_erase env authorization _ users₂
        (fun user => updateHandler_erase env body user _), h]

theorem dropFirst_prefix (h : String) : String.mk (("x" ++ h).data.drop 1) = h := by
  have hd : ("x" ++ h).data = 'x' :: h.data := rfl
  rw [hd]
  rfl

/-- Witness of claim C7: the login of the first example user is answered the same
when every hash `h` is stored as `x` followed by `h`; the profile of the second
example user carries no field `password` and is the same when the stored hashes
differ. -/
theorem responses_without_password_witness :
    (userService (relabelEnv (fun h => "x" ++ h) (fun s => String.mk (s.data.drop 1))
        exampleEnv) (.login ⟨some "ann@example.com", some "pw1"⟩)
        (relabelHashes (fun h => "x" ++ h) exampleTwoUsers)).2 =
      (userService exampleEnv (.login ⟨some "ann@example.com", some "pw1"⟩)
        exampleTwoUsers).2 ∧
    (userService exampleEnv (.profile (some "Bearer tok:u2")) exampleTwoUsers).2.body.hasKey
      "password" = false ∧
    (userService exampleEnv (.profile (some "Bearer tok:u2")) exampleTwoUsers).2 =
      (userService exampleEnv (.profile (some "Bearer tok:u2"))
        [exampleAnn, { exampleBob with password := "h:other" }]).2 :=
  ⟨(responses_without_password exampleEnv).2.1 (fun h => "x" ++ h)
      (fun s => String.mk (s.data.drop 1)) dropFirst_prefix _ _,
   (responses_without_password exampleEnv).1 _ _,
   (responses_without_password exampleEnv).2.2.1 _ _ _ (by decide)⟩

end StoreBackend
